import Mathlib

/-! Shallow embedding of the WonderDynamics wd-maya-tools character validator
(scripts/wd_validator), covering the validation checklist engine, the export
gate, the rig retargeting resolver and its manual edit protocol, the
retargeting template table, and the per-scene key/value persistence layer.

Statuses and identifiers are plain strings, as in the source.  Host (Maya)
scene queries are modelled as explicit inputs: each validate check's resulting
status is an input to the checklist engine, and joint hierarchies and
selection are explicit lists.
-/

namespace WdValidator

set_option maxHeartbeats 1600000

/-- Accepted statuses for export, from gui.ValidationUI.enable_export
(accepted_statuses list in the source). -/
def accepted_statuses : List String := ["pass", "skip", "warning", "warning_fix"]

/-- Keys of static.validation_windows_data, in the dictionary's insertion order.
The two header entries carry no status; all other entries are validators.
Modelled from the spec: the snapshot's static.validation_windows_data is
missing the all_group_check entry even though validation_main.character_validation,
validation_tools.all_group_check and gui.fix_button all use that validator id;
the spec's checklist (section 4.2) includes the group naming check gated by the
rig checks, so the entry is included here after history_check. -/
def validation_windows_keys : List String :=
  ["header_1", "scene_saved", "referenced_data", "header_2",
   "geo_check", "rig_check", "rig_group_check", "history_check",
   "all_group_check", "poly_count_check", "retargeting_check", "ik_check",
   "face_check", "material_type_check", "naming_check",
   "material_connections_check", "file_nodes_check", "textures_check",
   "xGen_check"]

/-- The validator identifiers (non header keys of validation_windows_keys):
the keys of gui.ValidationUI.validation_windows. -/
def validator_ids : List String :=
  ["scene_saved", "referenced_data",
   "geo_check", "rig_check", "rig_group_check", "history_check",
   "all_group_check", "poly_count_check", "retargeting_check", "ik_check",
   "face_check", "material_type_check", "naming_check",
   "material_connections_check", "file_nodes_check", "textures_check",
   "xGen_check"]

/-- Loop of gui.ValidationUI.enable_export: export_enable starts at True and
is set to False whenever some validator status is not accepted.  The result is
cached in the export_enable member variable in the source. -/
def export_enable_flag (status : String → String) : Bool :=
  validator_ids.foldl (fun acc v => if status v ∈ accepted_statuses then acc else false) true

/-- gui.ValidationUI.enable_export: computes the enabled state of the two
export buttons from the per validator statuses.  First component is the
primary button (export without groom), second the secondary button (export
with groom). -/
def enable_export (status : String → String) : Bool × Bool :=
  if export_enable_flag status then
    (true, if status "xGen_check" = "pass" then true else false)
  else
    (false, false)

theorem foldl_accept_eq_all (p : String → Prop) [DecidablePred p] (l : List String) (b : Bool) :
    l.foldl (fun acc v => if p v then acc else false) b = (b && l.all (fun v => decide (p v))) := by
  induction l generalizing b with
  | nil => simp
  | cons x xs ih =>
      rw [List.foldl_cons, List.all_cons, ih]
      by_cases hx : p x
      · simp [hx]
      · simp [hx]

theorem export_enable_flag_iff (status : String → String) :
    export_enable_flag status = true ↔ ∀ v ∈ validator_ids, status v ∈ accepted_statuses := by
  rw [export_enable_flag, foldl_accept_eq_all]
  simp [List.all_eq_true]

/-- C1: the primary export action is enabled iff every validator status is
accepted (pass, skip, warning or warning_fix), and the secondary groom export
action is enabled iff additionally the xGen_check validator's status is
exactly pass. -/
theorem c1_export_gate (status : String → String) :
    ((enable_export status).1 = true ↔ ∀ v ∈ validator_ids, status v ∈ accepted_statuses)
    ∧ ((enable_export status).2 = true ↔
        ((∀ v ∈ validator_ids, status v ∈ accepted_statuses) ∧ status "xGen_check" = "pass")) := by
  have hall := export_enable_flag_iff status
  unfold enable_export
  cases hb : export_enable_flag status with
  | false =>
      rw [hb] at hall
      simp only [Bool.false_eq_true, false_iff] at hall
      simp [hall]
  | true =>
      rw [hb] at hall
      simp only [true_iff] at hall
      by_cases hx : status "xGen_check" = "pass" <;> simp [hx] <;> exact hall

/-- C1 witness: with every validator passing, both export buttons are
enabled. -/
theorem c1_export_gate_witness :
    (enable_export (fun _ => "pass")).1 = true
    ∧ (enable_export (fun _ => "pass")).2 = true :=
  have h := c1_export_gate (fun _ => "pass")
  ⟨h.1.mpr (fun _ _ => by decide), h.2.mpr ⟨fun _ _ => by decide, rfl⟩⟩

/-! Part: Validation checklist engine (validation_main.py, utilities.py)

Every check in validation_tools queries the Maya scene and returns a status
string; the checklist engine only branches on those statuses.  The embedding
therefore takes the status each check would return as an input record, and
mirrors the control flow of validation_main.scene_validation,
validation_main.character_validation and validation_main.validation_run. -/

/-- Validation mode.  Modelled from the spec: the snapshot's static.py does not
define the VALIDATION_NORMAL and VALIDATION_USD constants referenced by
validation_main and gui; the spec describes a boolean usd mode flag, so the
mode is a two valued type. -/
inductive Mode where
  | normal : Mode
  | usd : Mode
deriving DecidableEq

/-- The status each validate check returns when it runs, one field per
validator id, in checklist order. -/
structure CheckOutcomes where
  scene_saved : String
  referenced_data : String
  geo_check : String
  rig_check : String
  rig_group_check : String
  history_check : String
  all_group_check : String
  poly_count_check : String
  retargeting_check : String
  ik_check : String
  face_check : String
  material_type_check : String
  naming_check : String
  material_connections_check : String
  file_nodes_check : String
  textures_check : String
  xGen_check : String

/-- Mutable state threaded through one validation run: validation_data is the
per run status dictionary reset by utilities.reset_validation_data and written
by every check; gui_status holds the statuses stored by
gui.ValidationUI.update_status in validation_windows. -/
structure RunState where
  validation_data : String → Option String
  gui_status : String → Option String

/-- Split test of update_status: val_type.split('_')[0] == 'header'.  The
first component of the underscore split is the run of characters before the
first underscore. -/
def is_header_key (v : String) : Bool :=
  v.data.takeWhile (fun c => c ≠ '_') == "header".data

/-- gui.ValidationUI.update_status: stores the status for a validator in the
validation_windows member data, skipping header entries. -/
def update_status (st : RunState) (v s : String) : RunState :=
  if is_header_key v then st
  else { st with gui_status := fun k => if k = v then some s else st.gui_status k }

/-- Write of scene_data.validation_data performed inside each validate check. -/
def set_validation_data (st : RunState) (v s : String) : RunState :=
  { st with validation_data := fun k => if k = v then some s else st.validation_data k }

/-- One step of the checklist flow: the check stores its status in
validation_data and the caller passes it to gui update_status. -/
def run_check (st : RunState) (v s : String) : RunState :=
  update_status (set_validation_data st v s) v s

/-- utilities.reset_validation_data: resets the status value of all validators
to None.  The source builds a dictionary with the keys of
static.validation_windows_data; the embedding resets the whole map and only
ever reads it at those keys. -/
def reset_validation_data (st : RunState) : RunState :=
  { st with validation_data := fun _ => none }

/-- utilities.abort_validation: sets an aborted gui status on every validator
that was not executed (validation_data still None).  Header entries are
skipped inside update_status. -/
def abort_validation (st : RunState) : RunState :=
  validation_windows_keys.foldl
    (fun s k => if s.validation_data k = none then update_status s k "aborted" else s) st

/-- validation_main.scene_validation: runs the two scene level checks and
returns whether both passed. -/
def scene_validation (c : CheckOutcomes) (st : RunState) : Bool × RunState :=
  let st := run_check st "scene_saved" c.scene_saved
  let st := run_check st "referenced_data" c.referenced_data
  (c.scene_saved == "pass" && c.referenced_data == "pass", st)

/-- validation_main.character_validation: the gated checklist.  The mode
argument is threaded to the rig check in the source but the gate on the rig
status does not consult it. -/
def character_validation (c : CheckOutcomes) (_mode : Mode) (st : RunState) : RunState :=
  let st := run_check st "geo_check" c.geo_check
  if c.geo_check == "pass" then
    let st := run_check st "rig_check" c.rig_check
    if c.rig_check == "pass" || c.rig_check == "warning_fix" then
      let st := run_check st "rig_group_check" c.rig_group_check
      let st := run_check st "history_check" c.history_check
      let st := run_check st "all_group_check" c.all_group_check
      if c.rig_group_check == "pass" then
        let st := run_check st "poly_count_check" c.poly_count_check
        let st := run_check st "retargeting_check" c.retargeting_check
        let st := run_check st "ik_check" c.ik_check
        let st := run_check st "face_check" c.face_check
        let st := run_check st "material_type_check" c.material_type_check
        if c.material_type_check == "pass" then
          let st := run_check st "naming_check" c.naming_check
          let st := run_check st "material_connections_check" c.material_connections_check
          let st := run_check st "file_nodes_check" c.file_nodes_check
          let st := run_check st "textures_check" c.textures_check
          run_check st "xGen_check" c.xGen_check
        else abort_validation st
      else abort_validation st
    else abort_validation st
  else abort_validation st

/-- validation_main.validation_run: reset, scene validation, then either the
character validation or an abort. -/
def validation_run (c : CheckOutcomes) (mode : Mode) (st0 : RunState) : RunState :=
  let st := reset_validation_data st0
  let r := scene_validation c st
  if r.1 then character_validation c mode r.2 else abort_validation r.2

/-- Export enable flag recomputed by gui.ValidationUI.start_validation right
after validation_run, from the stored gui statuses.  In the source a validator
whose status was never stored would raise; after a run every validator has a
status, so the default here is never read. -/
def gui_export_enable (st : RunState) : Bool :=
  export_enable_flag (fun v => (st.gui_status v).getD "")

/-- A state with no statuses recorded yet. -/
def empty_state : RunState := ⟨fun _ => none, fun _ => none⟩

theorem flag_false_of_unaccepted (st : RunState) (v : String) (hv : v ∈ validator_ids)
    (h : ((st.gui_status v).getD "") ∉ accepted_statuses) : gui_export_enable st = false := by
  unfold gui_export_enable
  cases hb : export_enable_flag fun v => (st.gui_status v).getD "" with
  | false => rfl
  | true => exact absurd ((export_enable_flag_iff _).1 hb v hv) h

/-- C2: whenever a gating check does not produce an accepted status (either
scene level check not pass, or the geo, rig, rig group or material gate not
accepted), every validator that has not executed yet in the fixed order ends
the run marked aborted and the export enable flag is false. -/
theorem c2_gating_aborts (c : CheckOutcomes) (mode : Mode) (st0 : RunState) :
    (¬ (c.scene_saved = "pass" ∧ c.referenced_data = "pass") →
      (∀ v ∈ (["geo_check", "rig_check", "rig_group_check", "history_check",
        "all_group_check", "poly_count_check", "retargeting_check", "ik_check",
        "face_check", "material_type_check", "naming_check",
        "material_connections_check", "file_nodes_check", "textures_check",
        "xGen_check"] : List String),
        (validation_run c mode st0).gui_status v = some "aborted")
      ∧ gui_export_enable (validation_run c mode st0) = false)
    ∧ (c.scene_saved = "pass" → c.referenced_data = "pass" → c.geo_check ≠ "pass" →
      (∀ v ∈ (["rig_check", "rig_group_check", "history_check",
        "all_group_check", "poly_count_check", "retargeting_check", "ik_check",
        "face_check", "material_type_check", "naming_check",
        "material_connections_check", "file_nodes_check", "textures_check",
        "xGen_check"] : List String),
        (validation_run c mode st0).gui_status v = some "aborted")
      ∧ gui_export_enable (validation_run c mode st0) = false)
    ∧ (c.scene_saved = "pass" → c.referenced_data = "pass" → c.geo_check = "pass" →
      ¬ (c.rig_check = "pass" ∨ c.rig_check = "warning_fix") →
      (∀ v ∈ (["rig_group_check", "history_check",
        "all_group_check", "poly_count_check", "retargeting_check", "ik_check",
        "face_check", "material_type_check", "naming_check",
        "material_connections_check", "file_nodes_check", "textures_check",
        "xGen_check"] : List String),
        (validation_run c mode st0).gui_status v = some "aborted")
      ∧ gui_export_enable (validation_run c mode st0) = false)
    ∧ (c.scene_saved = "pass" → c.referenced_data = "pass" → c.geo_check = "pass" →
      (c.rig_check = "pass" ∨ c.rig_check = "warning_fix") → c.rig_group_check ≠ "pass" →
      (∀ v ∈ (["poly_count_check", "retargeting_check", "ik_check",
        "face_check", "material_type_check", "naming_check",
        "material_connections_check", "file_nodes_check", "textures_check",
        "xGen_check"] : List String),
        (validation_run c mode st0).gui_status v = some "aborted")
      ∧ gui_export_enable (validation_run c mode st0) = false)
    ∧ (c.scene_saved = "pass" → c.referenced_data = "pass" → c.geo_check = "pass" →
      (c.rig_check = "pass" ∨ c.rig_check = "warning_fix") → c.rig_group_check = "pass" →
      c.material_type_check ≠ "pass" →
      (∀ v ∈ (["naming_check", "material_connections_check", "file_nodes_check",
        "textures_check", "xGen_check"] : List String),
        (validation_run c mode st0).gui_status v = some "aborted")
      ∧ gui_export_enable (validation_run c mode st0) = false) := by
  refine ⟨?_, ?_, ?_, ?_, ?_⟩
  · intro h1
    have hgate : (c.scene_saved == "pass" && c.referenced_data == "pass") = false := by
      rcases Bool.eq_false_or_eq_true (c.scene_saved == "pass" && c.referenced_data == "pass")
        with h | h
      · exact absurd (by simpa using h) h1
      · exact h
    have habort : ∀ v ∈ (["geo_check", "rig_check", "rig_group_check", "history_check",
        "all_group_check", "poly_count_check", "retargeting_check", "ik_check",
        "face_check", "material_type_check", "naming_check",
        "material_connections_check", "file_nodes_check", "textures_check",
        "xGen_check"] : List String),
        (validation_run c mode st0).gui_status v = some "aborted" := by
      intro v hv
      fin_cases hv <;>
        simp +decide [validation_run, scene_validation, character_validation, run_check,
          update_status, set_validation_data, abort_validation, reset_validation_data,
          validation_windows_keys, is_header_key, hgate]
    refine ⟨habort, flag_false_of_unaccepted _ "geo_check" (by decide) ?_⟩
    rw [habort "geo_check" (by decide)]
    decide
  · intro hs hr hgeo
    have habort : ∀ v ∈ (["rig_check", "rig_group_check", "history_check",
        "all_group_check", "poly_count_check", "retargeting_check", "ik_check",
        "face_check", "material_type_check", "naming_check",
        "material_connections_check", "file_nodes_check", "textures_check",
        "xGen_check"] : List String),
        (validation_run c mode st0).gui_status v = some "aborted" := by
      intro v hv
      fin_cases hv <;>
        simp +decide [validation_run, scene_validation, character_validation, run_check,
          update_status, set_validation_data, abort_validation, reset_validation_data,
          validation_windows_keys, is_header_key, hs, hr, hgeo]
    refine ⟨habort, flag_false_of_unaccepted _ "rig_check" (by decide) ?_⟩
    rw [habort "rig_check" (by decide)]
    decide
  · intro hs hr hgeo hrig
    have hg : (c.rig_check == "pass" || c.rig_check == "warning_fix") = false := by
      rcases Bool.eq_false_or_eq_true (c.rig_check == "pass" || c.rig_check == "warning_fix")
        with h | h
      · exact absurd (by simpa using h) hrig
      · exact h
    have habort : ∀ v ∈ (["rig_group_check", "history_check",
        "all_group_check", "poly_count_check", "retargeting_check", "ik_check",
        "face_check", "material_type_check", "naming_check",
        "material_connections_check", "file_nodes_check", "textures_check",
        "xGen_check"] : List String),
        (validation_run c mode st0).gui_status v = some "aborted" := by
      intro v hv
      fin_cases hv <;>
        simp +decide [validation_run, scene_validation, character_validation, run_check,
          update_status, set_validation_data, abort_validation, reset_validation_data,
          validation_windows_keys, is_header_key, hs, hr, hgeo, hg]
    refine ⟨habort, flag_false_of_unaccepted _ "rig_group_check" (by decide) ?_⟩
    rw [habort "rig_group_check" (by decide)]
    decide
  · intro hs hr hgeo hrig hgrp
    have hg : (c.rig_check == "pass" || c.rig_check == "warning_fix") = true := by
      rcases hrig with h | h <;> simp [h]
    have habort : ∀ v ∈ (["poly_count_check", "retargeting_check", "ik_check",
        "face_check", "material_type_check", "naming_check",
        "material_connections_check", "file_nodes_check", "textures_check",
        "xGen_check"] : List String),
        (validation_run c mode st0).gui_status v = some "aborted" := by
      intro v hv
      fin_cases hv <;>
        simp +decide [validation_run, scene_validation, character_validation, run_check,
          update_status, set_validation_data, abort_validation, reset_validation_data,
          validation_windows_keys, is_header_key, hs, hr, hgeo, hg, hgrp]
    refine ⟨habort, flag_false_of_unaccepted _ "poly_count_check" (by decide) ?_⟩
    rw [habort "poly_count_check" (by decide)]
    decide
  · intro hs hr hgeo hrig hgrp hmat
    have hg : (c.rig_check == "pass" || c.rig_check == "warning_fix") = true := by
      rcases hrig with h | h <;> simp [h]
    have habort : ∀ v ∈ (["naming_check", "material_connections_check", "file_nodes_check",
        "textures_check", "xGen_check"] : List String),
        (validation_run c mode st0).gui_status v = some "aborted" := by
      intro v hv
      fin_cases hv <;>
        simp +decide [validation_run, scene_validation, character_validation, run_check,
          update_status, set_validation_data, abort_validation, reset_validation_data,
          validation_windows_keys, is_header_key, hs, hr, hgeo, hg, hgrp, hmat]
    refine ⟨habort, flag_false_of_unaccepted _ "naming_check" (by decide) ?_⟩
    rw [habort "naming_check" (by decide)]
    decide

/-- C2 witness: a concrete run whose scene saved check fails ends with the
whole character checklist aborted and export disabled. -/
theorem c2_gating_aborts_witness :
    (validation_run
        ⟨"fail", "pass", "pass", "pass", "pass", "pass", "pass", "pass", "pass", "pass",
         "pass", "pass", "pass", "pass", "pass", "pass", "pass"⟩
        Mode.normal empty_state).gui_status "xGen_check" = some "aborted" :=
  ((c2_gating_aborts
      ⟨"fail", "pass", "pass", "pass", "pass", "pass", "pass", "pass", "pass", "pass",
       "pass", "pass", "pass", "pass", "pass", "pass", "pass"⟩
      Mode.normal empty_state).1 (by decide)).1 "xGen_check" (by decide)

/-- C3 (amended): each gated level executes exactly when its gating check's
status is accepted by that gate; the geo, rig group and material gates accept
only pass, while the rig gate accepts pass or warning_fix in both normal and
USD mode.  A validator executed iff its validation_data entry is set (the
aborted marker only touches gui statuses). -/
theorem c3_gate_acceptance (c : CheckOutcomes) (mode : Mode) (st0 : RunState) :
    ((c.geo_check ≠ "pass" →
      ∀ v ∈ (["rig_check", "rig_group_check", "history_check",
        "all_group_check", "poly_count_check", "retargeting_check", "ik_check",
        "face_check", "material_type_check", "naming_check",
        "material_connections_check", "file_nodes_check", "textures_check",
        "xGen_check"] : List String),
        (character_validation c mode (reset_validation_data st0)).validation_data v = none)
    ∧ (c.geo_check = "pass" →
      (character_validation c mode (reset_validation_data st0)).validation_data "rig_check"
        = some c.rig_check))
    ∧ ((c.geo_check = "pass" → ¬ (c.rig_check = "pass" ∨ c.rig_check = "warning_fix") →
      ∀ v ∈ (["rig_group_check", "history_check",
        "all_group_check", "poly_count_check", "retargeting_check", "ik_check",
        "face_check", "material_type_check", "naming_check",
        "material_connections_check", "file_nodes_check", "textures_check",
        "xGen_check"] : List String),
        (character_validation c mode (reset_validation_data st0)).validation_data v = none)
    ∧ (c.geo_check = "pass" → (c.rig_check = "pass" ∨ c.rig_check = "warning_fix") →
      (character_validation c mode (reset_validation_data st0)).validation_data "rig_group_check"
          = some c.rig_group_check
      ∧ (character_validation c mode (reset_validation_data st0)).validation_data "history_check"
          = some c.history_check
      ∧ (character_validation c mode (reset_validation_data st0)).validation_data "all_group_check"
          = some c.all_group_check))
    ∧ ((c.geo_check = "pass" → (c.rig_check = "pass" ∨ c.rig_check = "warning_fix") →
      c.rig_group_check ≠ "pass" →
      ∀ v ∈ (["poly_count_check", "retargeting_check", "ik_check",
        "face_check", "material_type_check", "naming_check",
        "material_connections_check", "file_nodes_check", "textures_check",
        "xGen_check"] : List String),
        (character_validation c mode (reset_validation_data st0)).validation_data v = none)
    ∧ (c.geo_check = "pass" → (c.rig_check = "pass" ∨ c.rig_check = "warning_fix") →
      c.rig_group_check = "pass" →
      (character_validation c mode (reset_validation_data st0)).validation_data "poly_count_check"
          = some c.poly_count_check
      ∧ (character_validation c mode (reset_validation_data st0)).validation_data "retargeting_check"
          = some c.retargeting_check
      ∧ (character_validation c mode (reset_validation_data st0)).validation_data "ik_check"
          = some c.ik_check
      ∧ (character_validation c mode (reset_validation_data st0)).validation_data "face_check"
          = some c.face_check
      ∧ (character_validation c mode (reset_validation_data st0)).validation_data "material_type_check"
          = some c.material_type_check))
    ∧ ((c.geo_check = "pass" → (c.rig_check = "pass" ∨ c.rig_check = "warning_fix") →
      c.rig_group_check = "pass" → c.material_type_check ≠ "pass" →
      ∀ v ∈ (["naming_check", "material_connections_check", "file_nodes_check",
        "textures_check", "xGen_check"] : List String),
        (character_validation c mode (reset_validation_data st0)).validation_data v = none)
    ∧ (c.geo_check = "pass" → (c.rig_check = "pass" ∨ c.rig_check = "warning_fix") →
      c.rig_group_check = "pass" → c.material_type_check = "pass" →
      (character_validation c mode (reset_validation_data st0)).validation_data "naming_check"
          = some c.naming_check
      ∧ (character_validation c mode (reset_validation_data st0)).validation_data "material_connections_check"
          = some c.material_connections_check
      ∧ (character_validation c mode (reset_validation_data st0)).validation_data "file_nodes_check"
          = some c.file_nodes_check
      ∧ (character_validation c mode (reset_validation_data st0)).validation_data "textures_check"
          = some c.textures_check
      ∧ (character_validation c mode (reset_validation_data st0)).validation_data "xGen_check"
          = some c.xGen_check)) := by
  refine ⟨⟨?_, ?_⟩, ⟨?_, ?_⟩, ⟨?_, ?_⟩, ⟨?_, ?_⟩⟩
  · intro hgeo v hv
    fin_cases hv <;>
      simp +decide [character_validation, run_check, update_status, set_validation_data,
        abort_validation, reset_validation_data, validation_windows_keys, is_header_key, hgeo]
  · intro hgeo
    by_cases hrig : c.rig_check = "pass" ∨ c.rig_check = "warning_fix"
    · have hg : (c.rig_check == "pass" || c.rig_check == "warning_fix") = true := by
        rcases hrig with h | h <;> simp [h]
      by_cases hgrp : c.rig_group_check = "pass"
      · by_cases hmat : c.material_type_check = "pass" <;>
          simp +decide [character_validation, run_check, update_status, set_validation_data,
            abort_validation, reset_validation_data, validation_windows_keys, is_header_key,
            hgeo, hg, hgrp, hmat]
      · simp +decide [character_validation, run_check, update_status, set_validation_data,
          abort_validation, reset_validation_data, validation_windows_keys, is_header_key,
          hgeo, hg, hgrp]
    · have hg : (c.rig_check == "pass" || c.rig_check == "warning_fix") = false := by
        rcases Bool.eq_false_or_eq_true (c.rig_check == "pass" || c.rig_check == "warning_fix")
          with h | h
        · exact absurd (by simpa using h) hrig
        · exact h
      simp +decide [character_validation, run_check, update_status, set_validation_data,
        abort_validation, reset_validation_data, validation_windows_keys, is_header_key,
        hgeo, hg]
  · intro hgeo hrig
    have hg : (c.rig_check == "pass" || c.rig_check == "warning_fix") = false := by
      rcases Bool.eq_false_or_eq_true (c.rig_check == "pass" || c.rig_check == "warning_fix")
        with h | h
      · exact absurd (by simpa using h) hrig
      · exact h
    intro v hv
    fin_cases hv <;>
      simp +decide [character_validation, run_check, update_status, set_validation_data,
        abort_validation, reset_validation_data, validation_windows_keys, is_header_key, hgeo, hg]
  · intro hgeo hrig
    have hg : (c.rig_check == "pass" || c.rig_check == "warning_fix") = true := by
      rcases hrig with h | h <;> simp [h]
    by_cases hgrp : c.rig_group_check = "pass"
    · by_cases hmat : c.material_type_check = "pass" <;>
        refine ⟨?_, ?_, ?_⟩ <;>
          simp +decide [character_validation, run_check, update_status, set_validation_data,
            abort_validation, reset_validation_data, validation_windows_keys, is_header_key,
            hgeo, hg, hgrp, hmat]
    · refine ⟨?_, ?_, ?_⟩ <;>
        simp +decide [character_validation, run_check, update_status, set_validation_data,
          abort_validation, reset_validation_data, validation_windows_keys, is_header_key,
          hgeo, hg, hgrp]
  · intro hgeo hrig hgrp
    have hg : (c.rig_check == "pass" || c.rig_check == "warning_fix") = true := by
      rcases hrig with h | h <;> simp [h]
    intro v hv
    fin_cases hv <;>
      simp +decide [character_validation, run_check, update_status, set_validation_data,
        abort_validation, reset_validation_data, validation_windows_keys, is_header_key,
        hgeo, hg, hgrp]
  · intro hgeo hrig hgrp
    have hg : (c.rig_check == "pass" || c.rig_check == "warning_fix") = true := by
      rcases hrig with h | h <;> simp [h]
    by_cases hmat : c.material_type_check = "pass" <;>
      refine ⟨?_, ?_, ?_, ?_, ?_⟩ <;>
        simp +decide [character_validation, run_check, update_status, set_validation_data,
          abort_validation, reset_validation_data, validation_windows_keys, is_header_key,
          hgeo, hg, hgrp, hmat]
  · intro hgeo hrig hgrp hmat
    have hg : (c.rig_check == "pass" || c.rig_check == "warning_fix") = true := by
      rcases hrig with h | h <;> simp [h]
    intro v hv
    fin_cases hv <;>
      simp +decide [character_validation, run_check, update_status, set_validation_data,
        abort_validation, reset_validation_data, validation_windows_keys, is_header_key,
        hgeo, hg, hgrp, hmat]
  · intro hgeo hrig hgrp hmat
    have hg : (c.rig_check == "pass" || c.rig_check == "warning_fix") = true := by
      rcases hrig with h | h <;> simp [h]
    refine ⟨?_, ?_, ?_, ?_, ?_⟩ <;>
      simp +decide [character_validation, run_check, update_status, set_validation_data,
        abort_validation, reset_validation_data, validation_windows_keys, is_header_key,
        hgeo, hg, hgrp, hmat]

/-- C3 witness: in a concrete run with an accepted geo gate, the rig check
executes and records its own status. -/
theorem c3_gate_acceptance_witness :
    (character_validation
        ⟨"pass", "pass", "pass", "fail", "pass", "pass", "pass", "pass", "pass", "pass",
         "pass", "pass", "pass", "pass", "pass", "pass", "pass"⟩
        Mode.usd (reset_validation_data empty_state)).validation_data "rig_check"
      = some "fail" :=
  (c3_gate_acceptance
      ⟨"pass", "pass", "pass", "fail", "pass", "pass", "pass", "pass", "pass", "pass",
       "pass", "pass", "pass", "pass", "pass", "pass", "pass"⟩
      Mode.usd empty_state).1.2 (by decide)

/-- C3 counterexample to the claim as stated: in normal (non USD) mode a rig
check status of warning_fix still opens the rig gate, so the rig group check
executes (its recorded status is its own result, not aborted). -/
theorem c3_normal_mode_warning_fix_cex :
    (character_validation
        ⟨"pass", "pass", "pass", "warning_fix", "pass", "pass", "pass", "pass", "pass",
         "pass", "pass", "pass", "pass", "pass", "pass", "pass", "pass"⟩
        Mode.normal (reset_validation_data empty_state)).validation_data "rig_group_check"
      = some "pass"
    ∧ (character_validation
        ⟨"pass", "pass", "pass", "warning_fix", "pass", "pass", "pass", "pass", "pass",
         "pass", "pass", "pass", "pass", "pass", "pass", "pass", "pass"⟩
        Mode.normal (reset_validation_data empty_state)).gui_status "rig_group_check"
      ≠ some "aborted" := by
  constructor
  · simp +decide [character_validation, run_check, update_status, set_validation_data,
      reset_validation_data, empty_state, is_header_key]
  · simp +decide [character_validation, run_check, update_status, set_validation_data,
      reset_validation_data, empty_state, is_header_key]

/-! Part: Retargeting templates (static.py) -/

/-- static.retargeting_templates_names: display names of the five templates,
ordered by template index. -/
def retargeting_templates_names : List String :=
  ["Wonder Dynamics", "Unreal Engine", "DAZ 3d", "Character Creator 4", "Quick Rig"]

/-- static.retargeting_templates: for every skeleton role, the list of joint
names used by each of the five templates, in the dictionary's insertion
order. -/
def retargeting_templates : List (String × List String) :=
  [("Hips", ["Hips", "pelvis", "hip", "CC_Base_Hip", "QuickRigCharacter_Hips"]),
   ("LeftUpLeg", ["LeftUpLeg", "thigh_l", "lThigh", "CC_Base_L_Thigh", "QuickRigCharacter_LeftUpLeg"]),
   ("RightUpLeg", ["RightUpLeg", "thigh_r", "rThigh", "CC_Base_R_Thigh", "QuickRigCharacter_RightUpLeg"]),
   ("Spine", ["Spine", "spine_03", "abdomen", "CC_Base_Waist", "QuickRigCharacter_Spine"]),
   ("LeftLeg", ["LeftLeg", "calf_l", "lShin", "CC_Base_L_Calf", "QuickRigCharacter_LeftLeg"]),
   ("RightLeg", ["RightLeg", "calf_r", "rShin", "CC_Base_R_Calf", "QuickRigCharacter_RightLeg"]),
   ("Spine1", ["Spine1", "spine_04", "abdomen2", "CC_Base_Spine01", "QuickRigCharacter_Spine1"]),
   ("LeftFoot", ["LeftFoot", "foot_l", "lFoot", "CC_Base_L_Foot", "QuickRigCharacter_LeftFoot"]),
   ("RightFoot", ["RightFoot", "foot_r", "rFoot", "CC_Base_R_Foot", "QuickRigCharacter_RightFoot"]),
   ("Spine2", ["Spine2", "spine_05", "chest", "CC_Base_Spine02", "QuickRigCharacter_Spine2"]),
   ("LeftToeBase", ["LeftToeBase", "ball_l", "lToe", "CC_Base_L_ToeBase", "QuickRigCharacter_LeftToeBase"]),
   ("RightToeBase", ["RightToeBase", "ball_r", "rToe", "CC_Base_R_ToeBase", "QuickRigCharacter_RightToeBase"]),
   ("Neck", ["Neck", "neck_01", "neck", "CC_Base_NeckTwist01", "QuickRigCharacter_Neck"]),
   ("LeftShoulder", ["LeftShoulder", "clavicle_l", "lCollar", "CC_Base_L_Clavicle", "QuickRigCharacter_LeftShoulder"]),
   ("RightShoulder", ["RightShoulder", "clavicle_r", "rCollar", "CC_Base_R_Clavicle", "QuickRigCharacter_RightShoulder"]),
   ("Head", ["Head", "head", "head", "CC_Base_Head", "QuickRigCharacter_Head"]),
   ("LeftArm", ["LeftArm", "upperarm_l", "lShldr", "CC_Base_L_Upperarm", "QuickRigCharacter_LeftArm"]),
   ("RightArm", ["RightArm", "upperarm_r", "rShldr", "CC_Base_R_Upperarm", "QuickRigCharacter_RightArm"]),
   ("LeftForeArm", ["LeftForeArm", "lowerarm_l", "lForeArm", "CC_Base_L_Forearm", "QuickRigCharacter_LeftForeArm"]),
   ("RightForeArm", ["RightForeArm", "lowerarm_r", "rForeArm", "CC_Base_R_Forearm", "QuickRigCharacter_RightForeArm"]),
   ("LeftHand", ["LeftHand", "hand_l", "lHand", "CC_Base_L_Hand", "QuickRigCharacter_LeftHand"]),
   ("RightHand", ["RightHand", "hand_r", "rHand", "CC_Base_R_Hand", "QuickRigCharacter_RightHand"]),
   ("LeftHandIndex1", ["LeftHandIndex1", "index_01_l", "lIndex1", "CC_Base_L_Index1", "QuickRigCharacter_LeftHandIndex1"]),
   ("LeftHandIndex2", ["LeftHandIndex2", "index_02_l", "lIndex2", "CC_Base_L_Index2", "QuickRigCharacter_LeftHandIndex2"]),
   ("LeftHandIndex3", ["LeftHandIndex3", "index_03_l", "lIndex3", "CC_Base_L_Index3", "QuickRigCharacter_LeftHandIndex3"]),
   ("LeftHandMiddle1", ["LeftHandMiddle1", "middle_01_l", "lMid1", "CC_Base_L_Mid1", "QuickRigCharacter_LeftHandMiddle1"]),
   ("LeftHandMiddle2", ["LeftHandMiddle2", "middle_02_l", "lMid2", "CC_Base_L_Mid2", "QuickRigCharacter_LeftHandMiddle2"]),
   ("LeftHandMiddle3", ["LeftHandMiddle3", "middle_03_l", "lMid3", "CC_Base_L_Mid3", "QuickRigCharacter_LeftHandMiddle3"]),
   ("LeftHandPinky1", ["LeftHandPinky1", "pinky_01_l", "lPinky1", "CC_Base_L_Pinky1", "QuickRigCharacter_LeftHandPinky1"]),
   ("LeftHandPinky2", ["LeftHandPinky2", "pinky_02_l", "lPinky2", "CC_Base_L_Pinky2", "QuickRigCharacter_LeftHandPinky2"]),
   ("LeftHandPinky3", ["LeftHandPinky3", "pinky_03_l", "lPinky3", "CC_Base_L_Pinky3", "QuickRigCharacter_LeftHandPinky3"]),
   ("LeftHandRing1", ["LeftHandRing1", "ring_01_l", "lRing1", "CC_Base_L_Ring1", "QuickRigCharacter_LeftHandRing1"]),
   ("LeftHandRing2", ["LeftHandRing2", "ring_02_l", "lRing2", "CC_Base_L_Ring2", "QuickRigCharacter_LeftHandRing2"]),
   ("LeftHandRing3", ["LeftHandRing3", "ring_03_l", "lRing3", "CC_Base_L_Ring3", "QuickRigCharacter_LeftHandRing3"]),
   ("LeftHandThumb1", ["LeftHandThumb1", "thumb_01_l", "lThumb1", "CC_Base_L_Thumb1", "QuickRigCharacter_LeftHandThumb1"]),
   ("LeftHandThumb2", ["LeftHandThumb2", "thumb_02_l", "lThumb2", "CC_Base_L_Thumb2", "QuickRigCharacter_LeftHandThumb2"]),
   ("LeftHandThumb3", ["LeftHandThumb3", "thumb_03_l", "lThumb3", "CC_Base_L_Thumb3", "QuickRigCharacter_LeftHandThumb3"]),
   ("RightHandIndex1", ["RightHandIndex1", "index_01_r", "rIndex1", "CC_Base_R_Index1", "QuickRigCharacter_RightHandIndex1"]),
   ("RightHandIndex2", ["RightHandIndex2", "index_02_r", "rIndex2", "CC_Base_R_Index2", "QuickRigCharacter_RightHandIndex2"]),
   ("RightHandIndex3", ["RightHandIndex3", "index_03_r", "rIndex3", "CC_Base_R_Index3", "QuickRigCharacter_RightHandIndex3"]),
   ("RightHandMiddle1", ["RightHandMiddle1", "middle_01_r", "rMid1", "CC_Base_R_Mid1", "QuickRigCharacter_RightHandMiddle1"]),
   ("RightHandMiddle2", ["RightHandMiddle2", "middle_02_r", "rMid2", "CC_Base_R_Mid2", "QuickRigCharacter_RightHandMiddle2"]),
   ("RightHandMiddle3", ["RightHandMiddle3", "middle_03_r", "rMid3", "CC_Base_R_Mid3", "QuickRigCharacter_RightHandMiddle3"]),
   ("RightHandPinky1", ["RightHandPinky1", "pinky_01_r", "rPinky1", "CC_Base_R_Pinky1", "QuickRigCharacter_RightHandPinky1"]),
   ("RightHandPinky2", ["RightHandPinky2", "pinky_02_r", "rPinky2", "CC_Base_R_Pinky2", "QuickRigCharacter_RightHandPinky2"]),
   ("RightHandPinky3", ["RightHandPinky3", "pinky_03_r", "rPinky3", "CC_Base_R_Pinky3", "QuickRigCharacter_RightHandPinky3"]),
   ("RightHandRing1", ["RightHandRing1", "ring_01_r", "rRing1", "CC_Base_R_Ring1", "QuickRigCharacter_RightHandRing1"]),
   ("RightHandRing2", ["RightHandRing2", "ring_02_r", "rRing2", "CC_Base_R_Ring2", "QuickRigCharacter_RightHandRing2"]),
   ("RightHandRing3", ["RightHandRing3", "ring_03_r", "rRing3", "CC_Base_R_Ring3", "QuickRigCharacter_RightHandRing3"]),
   ("RightHandThumb1", ["RightHandThumb1", "thumb_01_r", "rThumb1", "CC_Base_R_Thumb1", "QuickRigCharacter_RightHandThumb1"]),
   ("RightHandThumb2", ["RightHandThumb2", "thumb_02_r", "rThumb2", "CC_Base_R_Thumb2", "QuickRigCharacter_RightHandThumb2"]),
   ("RightHandThumb3", ["RightHandThumb3", "thumb_03_r", "rThumb3", "CC_Base_R_Thumb3", "QuickRigCharacter_RightHandThumb3"])]

/-- The skeleton roles, in table order (these are also the keys of the
bone_names dictionary of static.metadata_template). -/
def bone_roles : List String := retargeting_templates.map (fun p => p.1)

/-- Name of a role in the template of the given index
(static.retargeting_templates[role][index]). -/
def template_name (role : String) (idx : Nat) : Option String :=
  (retargeting_templates.lookup role).bind (fun names => names.get? idx)

/-- rev_map of RigRetargetingUI.auto_resolve_single_template:
the dict comprehension (v[index]: k) maps a joint name back to its role; a
later entry overwrites an earlier one with the same name, so the lookup scans
the reversed table. -/
def rev_map (idx : Nat) (name : String) : Option String :=
  (retargeting_templates.reverse.find? (fun p => p.2.getD idx "" == name)).map (fun p => p.1)

/-- C9: per template, looking up a role's joint name and reverse mapping it
yields the role again, and no joint name is used for two distinct roles inside
one template column. -/
theorem c9_template_bijective :
    (∀ idx ∈ List.range 5, ∀ p ∈ retargeting_templates,
      rev_map idx (p.2.getD idx "") = some p.1)
    ∧ (∀ idx ∈ List.range 5,
      (retargeting_templates.map (fun p => p.2.getD idx "")).Nodup) := by
  constructor
  · decide
  · decide

/-- C9 witness: the round trip at template index 2 for the Hips role. -/
theorem c9_template_bijective_witness :
    rev_map 2 "hip" = some "Hips" :=
  have h := (c9_template_bijective).1 2 (by decide)
    ("Hips", ["Hips", "pelvis", "hip", "CC_Base_Hip", "QuickRigCharacter_Hips"]) (by decide)
  h

/-! Part: Rig retargeting UI state and manual edit protocol (rig_retargeting_gui.py)

The RigRetargetingUI instance state that the claims depend on: the role to
joint mapping_dict, the set_bones list of joints in use, the persisted
rig_mapping blob, and the per role button command (after set_bone the button
triggers clear_bone; after clear_bone it triggers set_bone_button again).
Warnings and prints are collected in a message list. -/

structure RigState where
  mapping : String → Option String
  set_bones : List String
  saved_mapping : String → Option String
  button_clear : String → Bool
  msgs : List String

/-- Python truthiness for an optional string (None and the empty string are
falsy). -/
def python_truthy : Option String → Bool
  | none => false
  | some s => !(s == "")

/-- Appends one warning or print message. -/
def warn (st : RigState) (m : String) : RigState :=
  { st with msgs := st.msgs ++ [m] }

/-- RigRetargetingUI.set_bone: writes the role's text field, switches the
button command to clear_bone, records the bone in mapping_dict and set_bones
(removing the replaced bone first when replace is truthy) and optionally
persists the mapping.  The source uses list.remove, which assumes the replaced
bone is present (it always is in states reachable through the UI, where
List.erase agrees with it). -/
def set_bone (st : RigState) (key bone : String) (replace : Option String)
    (save : Bool) : RigState :=
  let mapping := fun k => if k = key then some bone else st.mapping k
  let sb :=
    if python_truthy replace then (st.set_bones.erase (replace.getD "")) ++ [bone]
    else st.set_bones ++ [bone]
  { mapping := mapping
    set_bones := sb
    saved_mapping := if save then mapping else st.saved_mapping
    button_clear := fun k => if k = key then true else st.button_clear k
    msgs := st.msgs }

/-- RigRetargetingUI.clear_bone: clears the role's field, removes its bone
from set_bones when present, switches the button command back to
set_bone_button and persists the mapping. -/
def clear_bone (st : RigState) (key : String) : RigState :=
  let mapping := fun k => if k = key then none else st.mapping k
  let sb :=
    match st.mapping key with
    | some c => if c ∈ st.set_bones then st.set_bones.erase c else st.set_bones
    | none => st.set_bones
  { mapping := mapping
    set_bones := sb
    saved_mapping := mapping
    button_clear := fun k => if k = key then false else st.button_clear k
    msgs := st.msgs }

/-- RigRetargetingUI.set_bone_button: assigns the single selected joint to the
role unless it is already in use.  The selection argument is the list returned
by the host for the current selection filtered to joints. -/
def set_bone_button (st : RigState) (key : String) (selection : List String) : RigState :=
  match selection with
  | [] => warn st "Make sure to select the joint before assigning it."
  | sel0 :: rest =>
      if rest.length = 0 then
        if sel0 ∈ st.set_bones then warn st "Bone already mapped."
        else set_bone st key sel0 none true
      else warn st "Make sure to select only one joint."

/-- RigRetargetingUI.set_bone_field: assigns the typed joint name to the role
when it names a scene joint that is not in use; a conflicting or invalid name
produces a warning and clears the role; an empty text clears the role.  The
identity test (text is not current_text) in the source compares the typed
string object with the stored one, which are never the identical object, so it
is always taken. -/
def set_bone_field (st : RigState) (key text : String) (joints : List String) : RigState :=
  if text ≠ "" then
    if text ∈ joints then
      if text ∉ st.set_bones then set_bone st key text (st.mapping key) true
      else clear_bone (warn st ("Joint: " ++ text ++ " is already set.")) key
    else clear_bone (warn st ("Object: " ++ text ++ " is not of type \"joint\".")) key
  else clear_bone st key

/-- A press of a role's icon button: the command attached to the button is
clear_bone when the role holds a bone and set_bone_button otherwise (set_bone
and clear_bone rewire it). -/
def press_button (st : RigState) (key : String) (selection : List String) : RigState :=
  if st.button_clear key then clear_bone st key else set_bone_button st key selection

/-- A manual operation on the joint mapping window: pressing a role's button
with some selection, or committing a text field edit. -/
inductive RigOp where
  | press : String → List String → RigOp
  | field : String → String → RigOp

/-- One manual operation; joints is the list of joints in the scene. -/
def rig_step (joints : List String) (st : RigState) : RigOp → RigState
  | .press key sel => press_button st key sel
  | .field key text => set_bone_field st key text joints

/-- A sequence of manual operations. -/
def rig_run (joints : List String) (ops : List RigOp) (st : RigState) : RigState :=
  ops.foldl (rig_step joints) st

/-- Well formed operation: a button selection never contains an empty name
(host node names are never empty strings). -/
def op_wf : RigOp → Prop
  | .press _ sel => "" ∉ sel
  | .field _ _ => True

/-- Fresh window state: no saved data, every role unassigned (the default
bone_names template of static.metadata_template maps every role to None). -/
def init_rig_state : RigState :=
  { mapping := fun _ => none
    set_bones := []
    saved_mapping := fun _ => none
    button_clear := fun _ => false
    msgs := [] }

/-- Invariants of the joint mapping state maintained by the manual edit
protocol. -/
structure RigInv (st : RigState) : Prop where
  values_in_set : ∀ k j, st.mapping k = some j → j ∈ st.set_bones
  nodup : st.set_bones.Nodup
  uniq : ∀ k1 k2 j, st.mapping k1 = some j → st.mapping k2 = some j → k1 = k2
  button : ∀ k, st.button_clear k = true ↔ st.mapping k ≠ none
  nonempty_vals : ∀ k, st.mapping k ≠ some ""


theorem clear_bone_inv (st : RigState) (key : String) (h : RigInv st) :
    RigInv (clear_bone st key) := by
  constructor
  · intro k j hk
    by_cases hkk : k = key
    · simp [clear_bone, hkk] at hk
    · simp only [clear_bone, if_neg hkk] at hk
      have hj := h.values_in_set k j hk
      rcases hmk : st.mapping key with _ | c
      · simpa [clear_bone, hmk] using hj
      · have hcin : c ∈ st.set_bones := h.values_in_set key c hmk
        have hne : j ≠ c := by
          intro hjc
          exact hkk (h.uniq k key j hk (by rw [hjc]; exact hmk))
        simp only [clear_bone, hmk, if_pos hcin]
        exact (List.mem_erase_of_ne hne).mpr hj
  · rcases hmk : st.mapping key with _ | c
    · simpa [clear_bone, hmk] using h.nodup
    · by_cases hcin : c ∈ st.set_bones
      · simp only [clear_bone, hmk, if_pos hcin]
        exact h.nodup.erase c
      · simpa [clear_bone, hmk, hcin] using h.nodup
  · intro k1 k2 j h1 h2
    by_cases hk1 : k1 = key <;> by_cases hk2 : k2 = key <;>
      simp only [clear_bone, if_pos, if_neg, hk1, hk2] at h1 h2
    · exact hk1.trans hk2.symm
    · simp [clear_bone, hk1] at h1
    · simp [clear_bone, hk2] at h2
    · exact h.uniq k1 k2 j (by simpa [clear_bone, hk1] using h1) (by simpa [clear_bone, hk2] using h2)
  · intro k
    by_cases hkk : k = key
    · simp [clear_bone, hkk]
    · simp only [clear_bone, if_neg hkk]
      exact h.button k
  · intro k
    by_cases hkk : k = key
    · simp [clear_bone, hkk]
    · simp only [clear_bone, if_neg hkk]
      exact h.nonempty_vals k


theorem warn_inv (st : RigState) (m : String) (h : RigInv st) : RigInv (warn st m) := by
  refine ⟨?_, ?_, ?_, ?_, ?_⟩ <;> simp only [warn]
  · exact h.values_in_set
  · exact h.nodup
  · exact h.uniq
  · exact h.button
  · exact h.nonempty_vals

theorem set_bone_inv (st : RigState) (key bone : String) (save : Bool)
    (h : RigInv st) (hnotin : bone ∉ st.set_bones) (hbone : bone ≠ "") :
    RigInv (set_bone st key bone (st.mapping key) save) := by
  rcases hmk : st.mapping key with _ | old
  · refine ⟨?_, ?_, ?_, ?_, ?_⟩
    · intro k j hk
      by_cases hkk : k = key
      · subst hkk
        simp [set_bone, hmk] at hk
        simp [set_bone, hmk, python_truthy, ← hk]
      · simp only [set_bone, hmk, if_neg hkk] at hk
        simp only [set_bone, hmk, python_truthy]
        exact List.mem_append_left _ (h.values_in_set k j hk)
    · simp only [set_bone, hmk, python_truthy]
      refine h.nodup.append (List.nodup_singleton _) ?_
      intro a ha hb
      simp only [List.mem_singleton] at hb
      exact hnotin (hb ▸ ha)
    · intro k1 k2 j h1 h2
      by_cases hk1 : k1 = key <;> by_cases hk2 : k2 = key
      · exact hk1.trans hk2.symm
      · exfalso
        simp only [set_bone, hmk, if_pos hk1, Option.some.injEq] at h1
        simp only [set_bone, hmk, if_neg hk2] at h2
        exact hnotin (h1 ▸ h.values_in_set k2 j h2)
      · exfalso
        simp only [set_bone, hmk, if_pos hk2, Option.some.injEq] at h2
        simp only [set_bone, hmk, if_neg hk1] at h1
        exact hnotin (h2 ▸ h.values_in_set k1 j h1)
      · simp only [set_bone, hmk, if_neg hk1] at h1
        simp only [set_bone, hmk, if_neg hk2] at h2
        exact h.uniq k1 k2 j h1 h2
    · intro k
      by_cases hkk : k = key
      · simp [set_bone, hmk, hkk]
      · simp only [set_bone, hmk, if_neg hkk]
        exact h.button k
    · intro k
      by_cases hkk : k = key
      · subst hkk
        simp [set_bone, hmk]
        exact hbone
      · simp only [set_bone, hmk, if_neg hkk]
        exact h.nonempty_vals k
  · have hold : old ≠ "" := by
      intro hc
      exact h.nonempty_vals key (hc ▸ hmk)
    have htruthy : python_truthy (some old) = true := by
      simp [python_truthy, hold]
    refine ⟨?_, ?_, ?_, ?_, ?_⟩
    · intro k j hk
      by_cases hkk : k = key
      · subst hkk
        simp [set_bone, hmk] at hk
        simp [set_bone, hmk, htruthy, ← hk]
      · simp only [set_bone, hmk, if_neg hkk] at hk
        have hj := h.values_in_set k j hk
        have hne : j ≠ old := by
          intro hjc
          exact hkk (h.uniq k key j hk (by rw [hjc]; exact hmk))
        simp only [set_bone, hmk, htruthy, if_pos, Option.getD_some]
        exact List.mem_append_left _ ((List.mem_erase_of_ne hne).mpr hj)
    · simp only [set_bone, hmk, htruthy, if_pos, Option.getD_some]
      refine (h.nodup.erase old).append (List.nodup_singleton _) ?_
      intro a ha hb
      simp only [List.mem_singleton] at hb
      exact hnotin (List.mem_of_mem_erase (hb ▸ ha))
    · intro k1 k2 j h1 h2
      by_cases hk1 : k1 = key <;> by_cases hk2 : k2 = key
      · exact hk1.trans hk2.symm
      · exfalso
        simp only [set_bone, hmk, if_pos hk1, Option.some.injEq] at h1
        simp only [set_bone, hmk, if_neg hk2] at h2
        exact hnotin (h1 ▸ h.values_in_set k2 j h2)
      · exfalso
        simp only [set_bone, hmk, if_pos hk2, Option.some.injEq] at h2
        simp only [set_bone, hmk, if_neg hk1] at h1
        exact hnotin (h2 ▸ h.values_in_set k1 j h1)
      · simp only [set_bone, hmk, if_neg hk1] at h1
        simp only [set_bone, hmk, if_neg hk2] at h2
        exact h.uniq k1 k2 j h1 h2
    · intro k
      by_cases hkk : k = key
      · simp [set_bone, hmk, hkk]
      · simp only [set_bone, hmk, if_neg hkk]
        exact h.button k
    · intro k
      by_cases hkk : k = key
      · subst hkk
        simp [set_bone, hmk]
        exact hbone
      · simp only [set_bone, hmk, if_neg hkk]
        exact h.nonempty_vals k


theorem rig_step_inv (joints : List String) (op : RigOp) (st : RigState)
    (h : RigInv st) (hwf : op_wf op) : RigInv (rig_step joints st op) := by
  cases op with
  | press key sel =>
      simp only [rig_step, press_button]
      by_cases hb : st.button_clear key
      · simp only [if_pos hb]
        exact clear_bone_inv st key h
      · simp only [if_neg hb]
        have hmk : st.mapping key = none := by
          by_contra hne
          exact hb ((h.button key).mpr hne)
        cases sel with
        | nil => exact warn_inv _ _ h
        | cons sel0 rest =>
            simp only [set_bone_button]
            by_cases hlen : rest.length = 0
            · simp only [if_pos hlen]
              by_cases hin : sel0 ∈ st.set_bones
              · simp only [if_pos hin]
                exact warn_inv _ _ h
              · simp only [if_neg hin]
                have hs0 : sel0 ≠ "" := by
                  intro hc
                  exact hwf (by simp [hc])
                have := set_bone_inv st key sel0 true h hin hs0
                rwa [hmk] at this
            · simp only [if_neg hlen]
              exact warn_inv _ _ h
  | field key text =>
      simp only [rig_step, set_bone_field]
      by_cases htext : text ≠ ""
      · simp only [if_pos htext]
        by_cases hj : text ∈ joints
        · simp only [if_pos hj]
          by_cases hin : text ∉ st.set_bones
          · simp only [if_pos hin]
            exact set_bone_inv st key text true h hin htext
          · simp only [if_neg hin]
            exact clear_bone_inv _ key (warn_inv _ _ h)
        · simp only [if_neg hj]
          exact clear_bone_inv _ key (warn_inv _ _ h)
      · simp only [if_neg htext]
        exact clear_bone_inv st key h

theorem rig_run_inv (joints : List String) (ops : List RigOp) (st : RigState)
    (h : RigInv st) (hops : ∀ op ∈ ops, op_wf op) : RigInv (rig_run joints ops st) := by
  induction ops generalizing st with
  | nil => exact h
  | cons op rest ih =>
      simp only [rig_run, List.foldl_cons]
      exact ih (rig_step joints st op)
        (rig_step_inv joints op st h (hops op (List.mem_cons_self op rest)))
        (fun o ho => hops o (List.mem_cons_of_mem op ho))

theorem init_rig_inv : RigInv init_rig_state := by
  refine ⟨?_, ?_, ?_, ?_, ?_⟩ <;> simp [init_rig_state]


/-- C5 (amended): after any sequence of manual button, field and clear
operations from a fresh mapping no joint is the value of two distinct roles,
and an assignment of a joint that is already in use is rejected with a
conflict report: a button assignment leaves everything but the message log
unchanged, while a field assignment of an in-use joint clears the target role
in addition to reporting the conflict. -/
theorem c5_assignment_uniqueness (joints : List String) (ops : List RigOp)
    (hops : ∀ op ∈ ops, op_wf op) :
    (∀ k1 k2 j, k1 ≠ k2 →
      (rig_run joints ops init_rig_state).mapping k1 = some j →
      (rig_run joints ops init_rig_state).mapping k2 = some j → False)
    ∧ (∀ (st : RigState) (key k0 j : String), RigInv st → st.mapping k0 = some j →
      set_bone_button st key [j] = warn st "Bone already mapped.")
    ∧ (∀ (st : RigState) (key k0 j : String), RigInv st → st.mapping k0 = some j →
      j ∈ joints →
      set_bone_field st key j joints
        = clear_bone (warn st ("Joint: " ++ j ++ " is already set.")) key) := by
  refine ⟨?_, ?_, ?_⟩
  · intro k1 k2 j hne h1 h2
    exact hne ((rig_run_inv joints ops init_rig_state init_rig_inv hops).uniq k1 k2 j h1 h2)
  · intro st key k0 j hinv hmap
    have hj : j ∈ st.set_bones := hinv.values_in_set k0 j hmap
    simp [set_bone_button, hj]
  · intro st key k0 j hinv hmap hjoints
    have hj : j ∈ st.set_bones := hinv.values_in_set k0 j hmap
    have hne : j ≠ "" := by
      intro hc
      exact hinv.nonempty_vals k0 (hc ▸ hmap)
    simp [set_bone_field, hne, hjoints, hj]

/-- C5 counterexample to the claim as stated: a field assignment of a joint
already held by another role is rejected with a conflict report but does not
leave the mapping unchanged: the target role, which held another joint, is
cleared.  Roles Hips and Spine are first mapped to joint1 and joint2; typing
joint1 into the Spine field then resets Spine to None. -/
theorem c5_field_conflict_clears_cex :
    (rig_run ["joint1", "joint2"]
      [RigOp.field "Hips" "joint1", RigOp.field "Spine" "joint2"]
      init_rig_state).mapping "Spine" = some "joint2"
    ∧ (rig_run ["joint1", "joint2"]
      [RigOp.field "Hips" "joint1", RigOp.field "Spine" "joint2",
       RigOp.field "Spine" "joint1"]
      init_rig_state).mapping "Spine" = none
    ∧ (rig_run ["joint1", "joint2"]
      [RigOp.field "Hips" "joint1", RigOp.field "Spine" "joint2",
       RigOp.field "Spine" "joint1"]
      init_rig_state).msgs = ["Joint: joint1 is already set."]
    ∧ (rig_run ["joint1", "joint2"]
      [RigOp.field "Hips" "joint1", RigOp.field "Spine" "joint2",
       RigOp.field "Spine" "joint1"]
      init_rig_state).mapping "Hips" = some "joint1" := by
  refine ⟨?_, ?_, ?_, ?_⟩ <;> decide

/-- C5 witness: the amended statement applied to a concrete scene: after
mapping Hips to joint1, pressing the Spine button with joint1 selected is
rejected and only logs the conflict message. -/
theorem c5_assignment_uniqueness_witness :
    set_bone_button (rig_step ["joint1"] init_rig_state (RigOp.field "Hips" "joint1"))
        "Spine" ["joint1"]
      = warn (rig_step ["joint1"] init_rig_state (RigOp.field "Hips" "joint1"))
          "Bone already mapped." :=
  (c5_assignment_uniqueness ["joint1"] [RigOp.field "Hips" "joint1"]
      (by intro op hop; simp at hop; subst hop; trivial)).2.1
    (rig_step ["joint1"] init_rig_state (RigOp.field "Hips" "joint1"))
    "Spine" "Hips" "joint1"
    (rig_step_inv ["joint1"] (RigOp.field "Hips" "joint1") init_rig_state init_rig_inv trivial)
    (by decide)

/-- C6: a field assignment of a fresh joint to a role that already holds one
performs an atomic replace on the in-use list (the old joint is erased before
the new one is appended, so the old joint ends up released and the new one in
use), and clearing a role releases its joint so that it can immediately be
assigned to another role without any conflict message. -/
theorem c6_atomic_replace_and_release (joints : List String) :
    (∀ (st : RigState) (key old new : String), RigInv st →
      st.mapping key = some old → new ∈ joints → new ∉ st.set_bones → new ≠ "" →
      (set_bone_field st key new joints).mapping key = some new
      ∧ (set_bone_field st key new joints).set_bones = (st.set_bones.erase old) ++ [new]
      ∧ old ∉ (set_bone_field st key new joints).set_bones
      ∧ new ∈ (set_bone_field st key new joints).set_bones)
    ∧ (∀ (st : RigState) (key k2 j : String), RigInv st →
      st.mapping key = some j → j ∈ joints →
      (clear_bone st key).mapping key = none
      ∧ j ∉ (clear_bone st key).set_bones
      ∧ (set_bone_field (clear_bone st key) k2 j joints).mapping k2 = some j
      ∧ (set_bone_field (clear_bone st key) k2 j joints).msgs = (clear_bone st key).msgs) := by
  constructor
  · intro st key old new hinv hmap hjoints hnotin hne
    have hold_in : old ∈ st.set_bones := hinv.values_in_set key old hmap
    have holdne : old ≠ "" := by
      intro hc
      exact hinv.nonempty_vals key (hc ▸ hmap)
    have htruthy : python_truthy (some old) = true := by simp [python_truthy, holdne]
    have hnew_old : new ≠ old := by
      intro hc
      exact hnotin (hc ▸ hold_in)
    refine ⟨?_, ?_, ?_, ?_⟩
    · simp [set_bone_field, hne, hjoints, hnotin, set_bone, hmap]
    · simp [set_bone_field, hne, hjoints, hnotin, set_bone, hmap, htruthy]
    · simp only [set_bone_field, if_pos hne, if_pos hjoints, if_pos hnotin, set_bone, hmap,
        htruthy, if_pos, Option.getD_some]
      intro hc
      rcases List.mem_append.mp hc with hc | hc
      · exact ((hinv.nodup.mem_erase_iff).mp hc).1 rfl
      · simp only [List.mem_singleton] at hc
        exact hnew_old hc.symm
    · simp only [set_bone_field, if_pos hne, if_pos hjoints, if_pos hnotin, set_bone, hmap,
        htruthy, if_pos, Option.getD_some]
      simp
  · intro st key k2 j hinv hmap hjoints
    have hj_in : j ∈ st.set_bones := hinv.values_in_set key j hmap
    have hjne : j ≠ "" := by
      intro hc
      exact hinv.nonempty_vals key (hc ▸ hmap)
    have hnot_after : j ∉ (clear_bone st key).set_bones := by
      simp only [clear_bone, hmap, if_pos hj_in]
      intro hc
      exact ((hinv.nodup.mem_erase_iff).mp hc).1 rfl
    refine ⟨?_, hnot_after, ?_, ?_⟩
    · simp [clear_bone]
    · simp [set_bone_field, hjne, hjoints, hnot_after, set_bone]
    · simp [set_bone_field, hjne, hjoints, hnot_after, set_bone]


/-- C6 witness: with Hips mapped to joint1, typing joint2 into the Hips field
replaces the bone atomically and releases joint1. -/
theorem c6_atomic_replace_and_release_witness :
    (set_bone_field (rig_step ["joint1", "joint2"] init_rig_state (RigOp.field "Hips" "joint1"))
        "Hips" "joint2" ["joint1", "joint2"]).mapping "Hips" = some "joint2"
    ∧ "joint1" ∉ (set_bone_field
        (rig_step ["joint1", "joint2"] init_rig_state (RigOp.field "Hips" "joint1"))
        "Hips" "joint2" ["joint1", "joint2"]).set_bones :=
  have h := (c6_atomic_replace_and_release ["joint1", "joint2"]).1
    (rig_step ["joint1", "joint2"] init_rig_state (RigOp.field "Hips" "joint1"))
    "Hips" "joint1" "joint2"
    (rig_step_inv ["joint1", "joint2"] (RigOp.field "Hips" "joint1") init_rig_state
      init_rig_inv trivial)
    (by decide) (by decide) (by decide) (by decide)
  ⟨h.1, h.2.2.1⟩

/-! Part: Single template auto resolution
(RigRetargetingUI.auto_resolve_single_template) -/

/-- Namespace stripping, joint.split(':')[-1]: the segment after the last
colon. -/
def strip_namespace (j : String) : String :=
  String.mk ((j.data.reverse.takeWhile (fun c => c ≠ ':')).reverse)

/-- static.retargeting_templates['Hips']: the per template hip names. -/
def hips_templates : List String := (retargeting_templates.lookup "Hips").getD []

/-- get_hip_bone: the namespace stripped rig selection when it is a known hip
name, otherwise the first joint in the hierarchy whose stripped name is a
known hip name. -/
def get_hip_bone (rig_selection : String) (all_joints : List String) : Option String :=
  let rig_sel := strip_namespace rig_selection
  if rig_sel ∈ hips_templates then some rig_sel
  else all_joints.findSome? (fun jnt =>
    let s := strip_namespace jnt
    if s ∈ hips_templates then some s else none)

/-- Loop of get_naming_index_from_hip: index of the first entry equal to the
hip name; none models the -1 failure value.  A hip of None matches nothing. -/
def naming_index_loop : List String → Option String → Option Nat
  | [], _ => none
  | v :: rest, hip =>
      if some v = hip then some 0 else (naming_index_loop rest hip).map (· + 1)

/-- get_naming_index_from_hip composed with get_hip_bone. -/
def get_naming_index_from_hip (rig_selection : String) (all_joints : List String) :
    Option Nat :=
  naming_index_loop hips_templates (get_hip_bone rig_selection all_joints)

/-- RigRetargetingUI.auto_resolve_single_template: picks the template matched
by the hip, then assigns every joint whose stripped name appears in that
template's reverse mapping, and finally persists the mapping.  The joint
hierarchy (root plus descendants, in traversal order) and the existence of the
root are inputs; failures print a message and leave the state untouched. -/
def auto_resolve_single_template (st : RigState) (root_exists : Bool)
    (rig_selection : String) (descendants : List String) : RigState :=
  let all_joints := rig_selection :: descendants
  if ¬ root_exists then
    warn st ("Could not find root joint " ++ rig_selection
      ++ ". Please re run validation to update data")
  else
    match get_naming_index_from_hip rig_selection all_joints with
    | none => warn st ("Could not guess template from Hip bone " ++ rig_selection)
    | some idx =>
        let st1 := all_joints.foldl (fun s joint =>
          match rev_map idx (strip_namespace joint) with
          | none => s
          | some key => set_bone s key joint none false) st
        { st1 with saved_mapping := st1.mapping }

theorem naming_index_loop_spec (l : List String) (hip : Option String) :
    ∀ i, naming_index_loop l hip = some i →
      l.get? i = hip ∧ ∀ m, m < i → l.get? m ≠ hip := by
  induction l with
  | nil => intro i h; simp [naming_index_loop] at h
  | cons v rest ih =>
      intro i h
      simp only [naming_index_loop] at h
      by_cases hv : some v = hip
      · simp only [if_pos hv, Option.some.injEq] at h
        subst h
        exact ⟨hv, by omega⟩
      · simp only [if_neg hv] at h
        rcases Option.map_eq_some'.mp h with ⟨i0, hi0, hadd⟩
        subst hadd
        rcases ih i0 hi0 with ⟨hget, hlt⟩
        refine ⟨hget, ?_⟩
        intro m hm
        cases m with
        | zero => simpa using hv
        | succ m0 =>
            simp only [List.get?_cons_succ]
            exact hlt m0 (by omega)

theorem naming_index_loop_none (l : List String) :
    naming_index_loop l none = none := by
  induction l with
  | nil => rfl
  | cons v rest ih => simp [naming_index_loop, ih]

/-- C7: when neither the root joint nor any descendant carries a hip name from
any template, the single template resolver only reports a diagnostic naming
the root joint: no role is assigned and neither the mapping nor the persisted
mapping changes. -/
theorem c7_no_hip_no_assignment (st : RigState) (rig_selection : String)
    (descendants : List String)
    (h1 : strip_namespace rig_selection ∉ hips_templates)
    (h2 : ∀ j ∈ descendants, strip_namespace j ∉ hips_templates) :
    (auto_resolve_single_template st true rig_selection descendants).mapping = st.mapping
    ∧ (auto_resolve_single_template st true rig_selection descendants).saved_mapping
        = st.saved_mapping
    ∧ (auto_resolve_single_template st true rig_selection descendants).set_bones
        = st.set_bones
    ∧ (auto_resolve_single_template st true rig_selection descendants).msgs
        = st.msgs ++ ["Could not guess template from Hip bone " ++ rig_selection] := by
  have hhip : get_hip_bone rig_selection (rig_selection :: descendants) = none := by
    simp only [get_hip_bone, if_neg h1]
    rw [List.findSome?_eq_none_iff]
    intro j hj
    rcases List.mem_cons.mp hj with hj | hj
    · subst hj
      simp [h1]
    · simp [h2 j hj]
  have hidx : get_naming_index_from_hip rig_selection (rig_selection :: descendants) = none := by
    rw [get_naming_index_from_hip, hhip, naming_index_loop_none]
  refine ⟨?_, ?_, ?_, ?_⟩ <;>
    simp [auto_resolve_single_template, hidx, warn]

theorem resolve_fold_conform (idx : Nat) (st0 : RigState) (all : List String) :
    ∀ (l : List String), (∀ j ∈ l, j ∈ all) → ∀ (s : RigState),
      (∀ R, s.mapping R = st0.mapping R
        ∨ ∃ j, j ∈ all ∧ s.mapping R = some j ∧ rev_map idx (strip_namespace j) = some R) →
      ∀ R, ((l.foldl (fun s joint =>
          match rev_map idx (strip_namespace joint) with
          | none => s
          | some key => set_bone s key joint none false) s).mapping R = st0.mapping R)
        ∨ ∃ j, j ∈ all
            ∧ (l.foldl (fun s joint =>
                match rev_map idx (strip_namespace joint) with
                | none => s
                | some key => set_bone s key joint none false) s).mapping R = some j
            ∧ rev_map idx (strip_namespace j) = some R := by
  intro l
  induction l with
  | nil => intro _ s hs R; simpa using hs R
  | cons joint rest ih =>
      intro hl s hs R
      simp only [List.foldl_cons]
      apply ih (fun j hj => hl j (List.mem_cons_of_mem _ hj))
      intro R0
      rcases hrm : rev_map idx (strip_namespace joint) with _ | key
      · simpa [hrm] using hs R0
      · simp only [hrm]
        by_cases hR0 : R0 = key
        · subst hR0
          right
          refine ⟨joint, hl joint (List.mem_cons_self _ _), ?_, hrm⟩
          simp [set_bone]
        · have : (set_bone s key joint none false).mapping R0 = s.mapping R0 := by
            simp [set_bone, hR0]
          rw [this]
          exact hs R0

/-- C4: once the hip resolves to a template index, that index is the lowest
matching one and the whole pass only assigns joints through that single
template's reverse mapping: any role whose entry changed now holds a joint of
the hierarchy whose stripped name is that template's name for the role. -/
theorem c4_single_template_resolution (st : RigState) (rig_selection : String)
    (descendants : List String) (idx : Nat)
    (hidx : get_naming_index_from_hip rig_selection (rig_selection :: descendants) = some idx) :
    (∃ h, get_hip_bone rig_selection (rig_selection :: descendants) = some h
      ∧ hips_templates.get? idx = some h
      ∧ ∀ i, i < idx → hips_templates.get? i ≠ some h)
    ∧ (∀ R, (auto_resolve_single_template st true rig_selection descendants).mapping R
          = st.mapping R
        ∨ ∃ j, j ∈ rig_selection :: descendants
            ∧ (auto_resolve_single_template st true rig_selection descendants).mapping R
                = some j
            ∧ rev_map idx (strip_namespace j) = some R) := by
  have hhip : ∃ h, get_hip_bone rig_selection (rig_selection :: descendants) = some h := by
    rcases hh : get_hip_bone rig_selection (rig_selection :: descendants) with _ | h
    · rw [get_naming_index_from_hip, hh, naming_index_loop_none] at hidx
      exact absurd hidx (by simp)
    · exact ⟨h, rfl⟩
  rcases hhip with ⟨h, hh⟩
  constructor
  · rw [get_naming_index_from_hip, hh] at hidx
    rcases naming_index_loop_spec hips_templates (some h) idx hidx with ⟨hget, hlt⟩
    exact ⟨h, hh, hget, fun i hi => hlt i hi⟩
  · intro R
    have hres : auto_resolve_single_template st true rig_selection descendants
        = (let st1 := (rig_selection :: descendants).foldl (fun s joint =>
            match rev_map idx (strip_namespace joint) with
            | none => s
            | some key => set_bone s key joint none false) st
          { st1 with saved_mapping := st1.mapping }) := by
      simp only [auto_resolve_single_template, hidx]
      simp
    rw [hres]
    exact resolve_fold_conform idx st (rig_selection :: descendants)
      (rig_selection :: descendants) (fun j hj => hj) st (fun R0 => Or.inl rfl) R


/-- C4 witness: a rig rooted at a joint named hip resolves to template index 2
(the DAZ naming), the lowest index whose hip entry matches. -/
theorem c4_single_template_resolution_witness :
    ∃ h, get_hip_bone "hip" ["hip", "lShldr"] = some h
      ∧ hips_templates.get? 2 = some h
      ∧ ∀ i, i < 2 → hips_templates.get? i ≠ some h :=
  (c4_single_template_resolution init_rig_state "hip" ["lShldr"] 2 (by decide)).1

/-- C7 witness: a hierarchy with no hip name anywhere leaves a fresh state
untouched except for the diagnostic naming the root joint. -/
theorem c7_no_hip_no_assignment_witness :
    (auto_resolve_single_template init_rig_state true "root" ["bone1"]).mapping
        = init_rig_state.mapping
    ∧ (auto_resolve_single_template init_rig_state true "root" ["bone1"]).saved_mapping
        = init_rig_state.saved_mapping
    ∧ (auto_resolve_single_template init_rig_state true "root" ["bone1"]).set_bones
        = init_rig_state.set_bones
    ∧ (auto_resolve_single_template init_rig_state true "root" ["bone1"]).msgs
        = init_rig_state.msgs ++ ["Could not guess template from Hip bone " ++ "root"] :=
  c7_no_hip_no_assignment init_rig_state "root" ["bone1"] (by decide) (by decide)


/-! Part: Retargeting data check (validation_tools.retargeting_check)

The stored rig mapping is an association list from role to optional joint
name, in dictionary order.  Scene queries (objExists) are an input predicate.
The model corresponds to a run with the joint mapping window closed: the
clear_bone call on the window raises there and is swallowed by the source. -/

/-- Dictionary indexing (all_bones[key]) on an association list. -/
def assoc_get : List (String × Option String) → String → Option (Option String)
  | [], _ => none
  | p :: rest, k => if p.1 = k then some p.2 else assoc_get rest k

/-- First loop of retargeting_check: every truthy bone that does not exist in
the scene any more is reset to None. -/
def prune_bones (objExists : String → Bool) (m : List (String × Option String)) :
    List (String × Option String) :=
  m.map (fun p =>
    match p.2 with
    | some b => if b ≠ "" ∧ ¬ objExists b then (p.1, none) else (p.1, some b)
    | none => (p.1, none))

/-- validation_tools.retargeting_check: prunes stale bones, persists the
pruned mapping, then derives the status.  First component is the content
stored under rig_mapping after the check, second the returned status. -/
def retargeting_check (stored : Option (List (String × Option String)))
    (objExists : String → Bool) :
    Option (List (String × Option String)) × String :=
  match stored with
  | some all_bones =>
      let pruned := prune_bones objExists all_bones
      let status :=
        if python_truthy ((assoc_get pruned "Hips").getD none) then
          if none ∈ pruned.map (fun p => p.2) then "warning" else "pass"
        else "fail"
      (some pruned, status)
  | none => (none, "fail")

theorem assoc_get_mem (m : List (String × Option String)) (k : String) (v : Option String)
    (h : assoc_get m k = some v) : (k, v) ∈ m := by
  induction m with
  | nil => simp [assoc_get] at h
  | cons p rest ih =>
      simp only [assoc_get] at h
      by_cases hp : p.1 = k
      · rw [if_pos hp] at h
        have hv : p = (k, v) := by
          cases p
          simp only [Option.some.injEq] at h
          simp_all
        rw [hv]
        exact List.mem_cons_self _ _
      · rw [if_neg hp] at h
        exact List.mem_cons_of_mem _ (ih h)

theorem prune_bones_no_empty (objExists : String → Bool)
    (m : List (String × Option String)) (hvals : ∀ p ∈ m, p.2 ≠ some "") :
    ∀ p ∈ prune_bones objExists m, p.2 ≠ some "" := by
  intro p hp
  simp only [prune_bones, List.mem_map] at hp
  rcases hp with ⟨q, hq, heq⟩
  rcases hb : q.2 with _ | b
  · subst heq; simp [hb]
  · subst heq
    simp only [hb]
    split
    · simp
    · simpa [hb] using hvals q hq

/-- C10: with stored mapping data, the check persists the pruned mapping in
which exactly the roles whose joints vanished are reset to None, and computes
the status from that pruned mapping: fail when Hips is unmapped, warning when
Hips is mapped and some other role is not, pass when everything is mapped;
with no stored data nothing is written and the status is fail. -/
theorem c10_retargeting_check_prunes (objExists : String → Bool)
    (m : List (String × Option String))
    (hvals : ∀ p ∈ m, p.2 ≠ some "") :
    ((retargeting_check (some m) objExists).1
        = some (m.map (fun p => (p.1, p.2.bind (fun j => if objExists j then some j else none)))))
    ∧ (assoc_get (prune_bones objExists m) "Hips" = some none →
        (retargeting_check (some m) objExists).2 = "fail")
    ∧ (∀ j, assoc_get (prune_bones objExists m) "Hips" = some (some j) →
        none ∈ (prune_bones objExists m).map (fun p => p.2) →
        (retargeting_check (some m) objExists).2 = "warning")
    ∧ (∀ j, assoc_get (prune_bones objExists m) "Hips" = some (some j) →
        none ∉ (prune_bones objExists m).map (fun p => p.2) →
        (retargeting_check (some m) objExists).2 = "pass")
    ∧ retargeting_check none objExists = (none, "fail") := by
  refine ⟨?_, ?_, ?_, ?_, rfl⟩
  · simp only [retargeting_check]
    congr 1
    simp only [prune_bones, List.map_inj_left]
    intro p hp
    rcases hb : p.2 with _ | b
    · simp [hb]
    · have hbne : b ≠ "" := by
        intro hc
        exact hvals p hp (by rw [hb, hc])
      simp only [hb, Option.bind_some]
      by_cases he : objExists b
      · simp [he, hbne]
      · simp [he, hbne]
  · intro hhips
    simp [retargeting_check, hhips, python_truthy]
  · intro j hhips hmem
    have hjne : j ≠ "" := by
      have := prune_bones_no_empty objExists m hvals _ (assoc_get_mem _ _ _ hhips)
      simpa using this
    simp [retargeting_check, hhips, python_truthy, hjne, hmem]
  · intro j hhips hmem
    have hjne : j ≠ "" := by
      have := prune_bones_no_empty objExists m hvals _ (assoc_get_mem _ _ _ hhips)
      simpa using this
    simp [retargeting_check, hhips, python_truthy, hjne, hmem]

/-- C10 witness: a two role mapping where the Spine joint vanished from the
scene is pruned to None on Spine and reports warning (Hips still mapped). -/
theorem c10_retargeting_check_prunes_witness :
    ((retargeting_check (some [("Hips", some "j1"), ("Spine", some "gone")])
        (fun s => s == "j1")).1
      = some [("Hips", some "j1"), ("Spine", none)])
    ∧ (retargeting_check (some [("Hips", some "j1"), ("Spine", some "gone")])
        (fun s => s == "j1")).2 = "warning" := by
  have h := c10_retargeting_check_prunes (fun s => s == "j1")
    [("Hips", some "j1"), ("Spine", some "gone")] (by decide)
  refine ⟨?_, ?_⟩
  · rw [h.1]
    decide
  · exact h.2.2.1 "j1" (by decide) (by decide)

/-! Part: Persistence layer (utilities.write_data / utilities.read_data)

write_data encodes a dictionary as a JSON document, UTF-8 encodes it, base64
encodes the bytes and stores the result under a key of the host file's
metadata block; read_data reverses the pipeline.  The JSON and base64 codecs
are the Python standard library, not part of the repository.
Modelled from the spec: JSON document then base64, lossless for dictionaries
whose values are strings, null, numbers (modelled as integers) and booleans.
The serializer uses the default json.dumps layout (entries separated by comma
and space, colon and space between key and value, quote and backslash and
control characters escaped); the parser accepts exactly that layout. -/

/-- JSON values supported by the stored dictionaries. -/
inductive JVal where
  | jstr : String → JVal
  | jint : Int → JVal
  | jbool : Bool → JVal
  | jnull : JVal
deriving DecidableEq

/-- Hexadecimal digit character for a value below 16. -/
def hex_digit (n : Nat) : Char :=
  if n < 10 then Char.ofNat ('0'.toNat + n) else Char.ofNat ('a'.toNat + (n - 10))

/-- Value of a hexadecimal digit character. -/
def hex_val (c : Char) : Option Nat :=
  if '0' ≤ c ∧ c ≤ '9' then some (c.toNat - '0'.toNat)
  else if 'a' ≤ c ∧ c ≤ 'f' then some (c.toNat - 'a'.toNat + 10)
  else if 'A' ≤ c ∧ c ≤ 'F' then some (c.toNat - 'A'.toNat + 10)
  else none

theorem char_toNat_ofNat (n : Nat) (h : n < 0xD800) : (Char.ofNat n).toNat = n := by
  unfold Char.ofNat
  split
  · rfl
  · next hv => exact absurd (show n.isValidChar from Or.inl h) hv

theorem hex_val_hex_digit (n : Nat) (h : n < 16) : hex_val (hex_digit n) = some n := by
  interval_cases n <;> decide

/-- JSON string escaping for one character: quote and backslash get a
backslash, control characters become a four digit hexadecimal escape, any
other character is emitted as is. -/
def esc_char (c : Char) : List Char :=
  if c = '"' then ['\\', '"']
  else if c = '\\' then ['\\', '\\']
  else if c.toNat < 0x20 then
    ['\\', 'u', '0', '0', hex_digit (c.toNat / 16), hex_digit (c.toNat % 16)]
  else [c]

/-- JSON string escaping for a character list. -/
def esc_string : List Char → List Char
  | [] => []
  | c :: cs => esc_char c ++ esc_string cs

/-- JSON string body parser: consumes characters up to the closing quote,
undoing the escapes of esc_char. -/
def parse_string_body : List Char → List Char → Option (List Char × List Char)
  | [], _ => none
  | c :: cs, acc =>
      if c = '"' then some (acc, cs)
      else if c = '\\' then
        match cs with
        | '"' :: cs2 => parse_string_body cs2 (acc ++ ['"'])
        | '\\' :: cs2 => parse_string_body cs2 (acc ++ ['\\'])
        | 'u' :: h1 :: h2 :: h3 :: h4 :: cs2 =>
            match hex_val h1, hex_val h2, hex_val h3, hex_val h4 with
            | some a, some b, some c2, some d =>
                parse_string_body cs2 (acc ++ [Char.ofNat (((a * 16 + b) * 16 + c2) * 16 + d)])
            | _, _, _, _ => none
        | _ => none
      else parse_string_body cs (acc ++ [c])
termination_by input _ => input.length
decreasing_by all_goals simp_all <;> omega


theorem parse_string_body_cons (c : Char) (cs acc : List Char) :
    parse_string_body (c :: cs) acc =
      (if c = '"' then some (acc, cs)
      else if c = '\\' then
        match cs with
        | '"' :: cs2 => parse_string_body cs2 (acc ++ ['"'])
        | '\\' :: cs2 => parse_string_body cs2 (acc ++ ['\\'])
        | 'u' :: h1 :: h2 :: h3 :: h4 :: cs2 =>
            match hex_val h1, hex_val h2, hex_val h3, hex_val h4 with
            | some a, some b, some c2, some d =>
                parse_string_body cs2 (acc ++ [Char.ofNat (((a * 16 + b) * 16 + c2) * 16 + d)])
            | _, _, _, _ => none
        | _ => none
      else parse_string_body cs (acc ++ [c])) := by
  rw [parse_string_body.eq_def]

theorem parse_body_esc (c : Char) (rest acc : List Char) :
    parse_string_body (esc_char c ++ rest) acc = parse_string_body rest (acc ++ [c]) := by
  by_cases hq : c = '"'
  · subst hq
    simp only [esc_char, eq_self_iff_true, if_true, List.cons_append, List.nil_append]
    rw [parse_string_body_cons]
    simp
  · by_cases hb : c = '\\'
    · subst hb
      simp only [esc_char, if_neg (show ¬ ('\\' : Char) = '"' from by decide),
        eq_self_iff_true, if_true, List.cons_append, List.nil_append]
      rw [parse_string_body_cons]
      simp
    · by_cases hc : c.toNat < 0x20
      · have h16 : c.toNat / 16 < 16 := by omega
        have h16b : c.toNat % 16 < 16 := by omega
        have hchar : Char.ofNat ((((0:Nat) * 16 + 0) * 16 + c.toNat / 16) * 16 + c.toNat % 16)
            = c := by
          rw [show (((0:Nat) * 16 + 0) * 16 + c.toNat / 16) * 16 + c.toNat % 16 = c.toNat from
            by omega, Char.ofNat_toNat]
        simp only [esc_char, if_neg hq, if_neg hb, if_pos hc, List.cons_append, List.nil_append]
        rw [parse_string_body_cons]
        simp only [if_neg (show ¬ ('\\' : Char) = '"' from by decide),
          eq_self_iff_true, if_true, show hex_val '0' = some 0 from by decide,
          hex_val_hex_digit _ h16, hex_val_hex_digit _ h16b]
        rw [show ((((0:Nat) * 16 + 0) * 16 + c.toNat / 16) * 16 + c.toNat % 16) = c.toNat from
          by omega, Char.ofNat_toNat]
      · simp only [esc_char, if_neg hq, if_neg hb, if_neg hc, List.cons_append, List.nil_append]
        rw [parse_string_body_cons, if_neg hq, if_neg hb]

theorem parse_body_append (s : List Char) (rest acc : List Char) :
    parse_string_body (esc_string s ++ '"' :: rest) acc = some (acc ++ s, rest) := by
  induction s generalizing acc with
  | nil =>
      simp only [esc_string, List.nil_append]
      rw [parse_string_body_cons]
      simp
  | cons c cs ih =>
      rw [esc_string, List.append_assoc, parse_body_esc, ih]
      simp


/-- Decimal digit character. -/
def dec_digit (n : Nat) : Char := Char.ofNat ('0'.toNat + n)

/-- Decimal representation of a natural number, most significant digit
first. -/
def nat_digits (n : Nat) : List Char :=
  if h : n < 10 then [dec_digit n]
  else nat_digits (n / 10) ++ [dec_digit (n % 10)]
termination_by n
decreasing_by exact Nat.div_lt_self (by omega) (by omega)

/-- Digit test of the number scanner. -/
def is_digit (c : Char) : Bool := '0' ≤ c && c ≤ '9'

/-- Greedy decimal scanner with accumulator. -/
def parse_digits : List Char → Nat → (Nat × List Char)
  | [], acc => (acc, [])
  | c :: cs, acc =>
      if is_digit c then parse_digits cs (acc * 10 + (c.toNat - '0'.toNat))
      else (acc, c :: cs)

/-- A list whose head, if any, is not a digit (a scanner stopping point). -/
def digit_free_head : List Char → Prop
  | [] => True
  | c :: _ => is_digit c = false

theorem parse_digits_stop (rest : List Char) (acc : Nat) (h : digit_free_head rest) :
    parse_digits rest acc = (acc, rest) := by
  cases rest with
  | nil => rfl
  | cons c cs =>
      simp only [digit_free_head] at h
      simp [parse_digits, h]

theorem parse_digits_append (ds : List Char) (hds : ∀ c ∈ ds, is_digit c = true)
    (rest : List Char) (hrest : digit_free_head rest) (acc : Nat) :
    parse_digits (ds ++ rest) acc
      = (ds.foldl (fun a c => a * 10 + (c.toNat - '0'.toNat)) acc, rest) := by
  induction ds generalizing acc with
  | nil => simpa using parse_digits_stop rest acc hrest
  | cons c cs ih =>
      simp only [List.cons_append, parse_digits, if_pos (hds c (List.mem_cons_self c cs)),
        List.foldl_cons]
      exact ih (fun d hd => hds d (List.mem_cons_of_mem c hd)) _

theorem is_digit_dec_digit (m : Nat) (h : m < 10) : is_digit (dec_digit m) = true := by
  interval_cases m <;> decide

theorem dec_digit_toNat (m : Nat) (h : m < 10) : (dec_digit m).toNat = 48 + m := by
  interval_cases m <;> decide

theorem nat_digits_all_digits (n : Nat) : ∀ c ∈ nat_digits n, is_digit c = true := by
  induction n using Nat.strong_induction_on with
  | _ n ih =>
      intro c hc
      rw [nat_digits] at hc
      split at hc
      · next h =>
          simp only [List.mem_singleton] at hc
          subst hc
          exact is_digit_dec_digit n h
      · next h =>
          rcases List.mem_append.mp hc with hc | hc
          · exact ih (n / 10) (Nat.div_lt_self (by omega) (by omega)) c hc
          · simp only [List.mem_singleton] at hc
            subst hc
            exact is_digit_dec_digit (n % 10) (by omega)

theorem foldl_nat_digits (n : Nat) (acc : Nat) :
    (nat_digits n).foldl (fun a c => a * 10 + (c.toNat - '0'.toNat)) acc
      = acc * 10 ^ (nat_digits n).length + n := by
  induction n using Nat.strong_induction_on generalizing acc with
  | _ n ih =>
      rw [nat_digits]
      split
      · next h =>
          simp [dec_digit_toNat n h, show ('0').toNat = 48 from rfl]
      · next h =>
          rw [List.foldl_append, ih (n / 10) (Nat.div_lt_self (by omega) (by omega)) acc]
          simp [dec_digit_toNat (n % 10) (by omega), show ('0').toNat = 48 from rfl,
            List.length_append, pow_succ]
          ring_nf
          omega


/-- Serialization of one JSON value (json.dumps fragment): quoted escaped
strings, decimal integers, true/false, null. -/
def dump_jval : JVal → List Char
  | .jstr s => '"' :: esc_string s.data ++ ['"']
  | .jint n => if n < 0 then '-' :: nat_digits n.natAbs else nat_digits n.natAbs
  | .jbool true => ['t', 'r', 'u', 'e']
  | .jbool false => ['f', 'a', 'l', 's', 'e']
  | .jnull => ['n', 'u', 'l', 'l']

/-- Parser for one JSON value, accepting exactly the dump_jval forms. -/
def parse_jval : List Char → Option (JVal × List Char)
  | '"' :: cs =>
      match parse_string_body cs [] with
      | some (s, rest) => some (.jstr (String.mk s), rest)
      | none => none
  | 't' :: 'r' :: 'u' :: 'e' :: cs => some (.jbool true, cs)
  | 'f' :: 'a' :: 'l' :: 's' :: 'e' :: cs => some (.jbool false, cs)
  | 'n' :: 'u' :: 'l' :: 'l' :: cs => some (.jnull, cs)
  | '-' :: c :: cs =>
      if is_digit c then
        match parse_digits (c :: cs) 0 with
        | (n, rest) => some (.jint (-(n : Int)), rest)
      else none
  | c :: cs =>
      if is_digit c then
        match parse_digits (c :: cs) 0 with
        | (n, rest) => some (.jint (n : Int), rest)
      else none
  | [] => none

theorem parse_digits_nat (n : Nat) (rest : List Char) (hrest : digit_free_head rest) :
    parse_digits (nat_digits n ++ rest) 0 = (n, rest) := by
  rw [parse_digits_append (nat_digits n) (nat_digits_all_digits n) rest hrest 0,
    foldl_nat_digits]
  simp

theorem nat_digits_head_digit (n : Nat) :
    ∃ c cs, nat_digits n = c :: cs ∧ is_digit c = true := by
  rw [nat_digits]
  split
  · next h => exact ⟨dec_digit n, [], rfl, is_digit_dec_digit n h⟩
  · next h =>
      rcases hx : nat_digits (n / 10) with _ | ⟨c, cs⟩
      · exfalso
        have := nat_digits_all_digits (n / 10)
        rw [nat_digits] at hx
        split at hx <;> simp_all
      · refine ⟨c, cs ++ [dec_digit (n % 10)], by simp, ?_⟩
        have := nat_digits_all_digits (n / 10)
        rw [hx] at this
        exact this c (List.mem_cons_self _ _)

theorem parse_jval_digit_head (c : Char) (cs : List Char) (hdig : is_digit c = true) :
    parse_jval (c :: cs)
      = some (.jint (((parse_digits (c :: cs) 0).1 : Int)), (parse_digits (c :: cs) 0).2) := by
  rw [parse_jval.eq_def]
  split <;> simp_all [is_digit]

theorem parse_jval_neg_digit (c : Char) (cs : List Char) (hdig : is_digit c = true) :
    parse_jval ('-' :: c :: cs)
      = some (.jint (-((parse_digits (c :: cs) 0).1 : Int)), (parse_digits (c :: cs) 0).2) := by
  rw [parse_jval.eq_def]
  split <;> try simp_all [is_digit]
  next x0 heq => exact absurd heq.2.symm (x0 c cs heq.1.symm)

theorem parse_jval_dump (v : JVal) (rest : List Char) (hrest : digit_free_head rest) :
    parse_jval (dump_jval v ++ rest) = some (v, rest) := by
  cases v with
  | jstr s =>
      simp only [dump_jval, List.cons_append, List.append_assoc, List.nil_append]
      rw [parse_jval]
      rw [parse_body_append s.data rest []]
      simp
  | jint n =>
      rcases nat_digits_head_digit n.natAbs with ⟨c, cs, hcs, hdig⟩
      by_cases hneg : n < 0
      · simp only [dump_jval, if_pos hneg]
        rw [hcs, List.cons_append, List.cons_append,
          parse_jval_neg_digit c (cs ++ rest) hdig, ← List.cons_append, ← hcs,
          parse_digits_nat n.natAbs rest hrest]
        have hv : -((n.natAbs : Int)) = n := by omega
        rw [hv]
      · simp only [dump_jval, if_neg hneg]
        rw [hcs, List.cons_append, parse_jval_digit_head c (cs ++ rest) hdig,
          ← List.cons_append, ← hcs, parse_digits_nat n.natAbs rest hrest]
        have hv : ((n.natAbs : Int)) = n := by omega
        rw [hv]
  | jbool b => cases b <;> (rw [dump_jval]; rfl)
  | jnull => rw [dump_jval]; rfl


/-- Serialization of one dictionary entry: quoted key, colon, space, value. -/
def dump_entry (p : String × JVal) : List Char :=
  '"' :: esc_string p.1.data ++ '"' :: ':' :: ' ' :: dump_jval p.2

/-- Serialization of the entry list, separated by comma and space. -/
def dump_entries : List (String × JVal) → List Char
  | [] => []
  | [p] => dump_entry p
  | p :: rest => dump_entry p ++ ',' :: ' ' :: dump_entries rest

/-- json.dumps of a dictionary. -/
def json_dumps (m : List (String × JVal)) : List Char :=
  '\x7b' :: dump_entries m ++ ['\x7d']

/-- Entry list parser (fuel bounded recursion; one unit of fuel per entry). -/
def parse_entries : Nat → List Char → Option (List (String × JVal) × List Char)
  | 0, _ => none
  | fuel + 1, input =>
      match input with
      | '"' :: cs =>
          match parse_string_body cs [] with
          | some (key, rest1) =>
              match rest1 with
              | ':' :: ' ' :: rest2 =>
                  match parse_jval rest2 with
                  | some (v, rest3) =>
                      match rest3 with
                      | ',' :: ' ' :: rest4 =>
                          match parse_entries fuel rest4 with
                          | some (es, r) => some ((String.mk key, v) :: es, r)
                          | none => none
                      | '\x7d' :: rest4 => some ([(String.mk key, v)], rest4)
                      | _ => none
                  | none => none
              | _ => none
          | none => none
      | _ => none

/-- json.loads of a dictionary document: the whole input must be consumed. -/
def json_loads (input : List Char) : Option (List (String × JVal)) :=
  match input with
  | '\x7b' :: cs =>
      match cs with
      | '\x7d' :: rest => if rest.isEmpty then some [] else none
      | _ =>
          match parse_entries cs.length cs with
          | some (es, []) => some es
          | _ => none
  | _ => none

theorem dump_entries_cons (p : String × JVal) (q : String × JVal)
    (rest : List (String × JVal)) :
    dump_entries (p :: q :: rest) = dump_entry p ++ ',' :: ' ' :: dump_entries (q :: rest) := by
  rfl

theorem string_mk_data (s : String) : String.mk s.data = s := by
  cases s
  rfl

theorem parse_entries_dump (m : List (String × JVal)) (hm : m ≠ []) :
    ∀ fuel, m.length ≤ fuel → ∀ rest,
      parse_entries fuel (dump_entries m ++ '\x7d' :: rest) = some (m, rest) := by
  induction m with
  | nil => exact absurd rfl hm
  | cons p ms ih =>
      intro fuel hfuel rest
      cases fuel with
      | zero => simp at hfuel
      | succ f =>
          cases ms with
          | nil =>
              have hstep : dump_entries [p] ++ '\x7d' :: rest
                  = '"' :: (esc_string p.1.data ++ '"' :: ':' :: ' ' ::
                      (dump_jval p.2 ++ '\x7d' :: rest)) := by
                simp [dump_entries, dump_entry]
              rw [hstep]
              simp only [parse_entries]
              rw [parse_body_append p.1.data (':' :: ' ' :: (dump_jval p.2 ++ '\x7d' :: rest)) []]
              simp only [List.nil_append]
              rw [parse_jval_dump p.2 ('\x7d' :: rest) (by simp [digit_free_head, is_digit])]
              simp [string_mk_data]
          | cons q qs =>
              have hstep : dump_entries (p :: q :: qs) ++ '\x7d' :: rest
                  = '"' :: (esc_string p.1.data ++ '"' :: ':' :: ' ' ::
                      (dump_jval p.2 ++ ',' :: ' ' :: (dump_entries (q :: qs) ++ '\x7d' :: rest))) := by
                simp [dump_entries_cons, dump_entry]
              rw [hstep]
              simp only [parse_entries]
              rw [parse_body_append p.1.data
                (':' :: ' ' :: (dump_jval p.2 ++ ',' :: ' ' :: (dump_entries (q :: qs) ++ '\x7d' :: rest))) []]
              simp only [List.nil_append]
              rw [parse_jval_dump p.2 (',' :: ' ' :: (dump_entries (q :: qs) ++ '\x7d' :: rest))
                (by simp [digit_free_head, is_digit])]
              have hih := ih (by simp) f (by simpa using hfuel) rest
              simp only [hih, string_mk_data]


theorem dump_entries_length (m : List (String × JVal)) :
    m.length ≤ (dump_entries m).length := by
  induction m with
  | nil => simp [dump_entries]
  | cons p ms ih =>
      cases ms with
      | nil => simp [dump_entries, dump_entry]
      | cons q qs =>
          rw [dump_entries_cons]
          simp only [List.length_append, List.length_cons]
          simp only [List.length_cons] at ih
          have : 0 ≤ (dump_entry p).length := Nat.zero_le _
          omega

theorem dump_entries_head (p : String × JVal) (ms : List (String × JVal)) :
    ∃ t, dump_entries (p :: ms) = '"' :: t := by
  cases ms with
  | nil => exact ⟨_, rfl⟩
  | cons q qs => exact ⟨_, rfl⟩

theorem json_loads_dumps (m : List (String × JVal)) :
    json_loads (json_dumps m) = some m := by
  cases m with
  | nil => rfl
  | cons p ms =>
      rcases dump_entries_head p ms with ⟨t, ht⟩
      have hcs : '"' :: (t ++ ['\x7d']) = dump_entries (p :: ms) ++ '\x7d' :: [] := by
        rw [ht]
        simp
      rw [json_dumps, ht]
      simp only [List.cons_append]
      simp only [json_loads]
      split
      · next heq => simp at heq
      · have hfuel : (p :: ms).length ≤ (dump_entries (p :: ms) ++ ['\x7d']).length := by
          simp only [List.length_append, List.length_cons]
          have := dump_entries_length (p :: ms)
          simp only [List.length_cons] at this ⊢
          omega
        rw [hcs, parse_entries_dump (p :: ms) (by simp) _ hfuel []]


/-- UTF-8 encoding of one code point. -/
def utf8_encode_char (n : Nat) : List Nat :=
  if n < 0x80 then [n]
  else if n < 0x800 then [0xC0 + n / 64, 0x80 + n % 64]
  else if n < 0x10000 then [0xE0 + n / 4096, 0x80 + (n / 64) % 64, 0x80 + n % 64]
  else [0xF0 + n / 0x40000, 0x80 + (n / 4096) % 64, 0x80 + (n / 64) % 64, 0x80 + n % 64]

/-- UTF-8 encoding of a character list (str.encode of the source). -/
def utf8_encode : List Char → List Nat
  | [] => []
  | c :: cs => utf8_encode_char c.toNat ++ utf8_encode cs

/-- Continuation step of the UTF-8 decoder: prefix the decoded code point. -/
def utf8_cont (k : Nat) : Option (List Char) → Option (List Char)
  | some cs => some (Char.ofNat k :: cs)
  | none => none

/-- Continuation byte test. -/
def cont_byte (b : Nat) : Prop := 0x80 ≤ b ∧ b < 0xC0

instance (b : Nat) : Decidable (cont_byte b) := by
  unfold cont_byte
  infer_instance

/-- Fuel bounded UTF-8 decoder (one unit of fuel per code point). -/
def utf8_decode_fuel : Nat → List Nat → Option (List Char)
  | 0, l => if l = [] then some [] else none
  | fuel + 1, l =>
      if h : l = [] then some []
      else
        let b := l.headD 0
        let bs := l.tail
        if b < 0x80 then utf8_cont b (utf8_decode_fuel fuel bs)
        else if 0xC0 ≤ b ∧ b < 0xE0 then
          if 1 ≤ bs.length ∧ cont_byte (bs.getD 0 0) then
            utf8_cont ((b - 0xC0) * 64 + (bs.getD 0 0 - 0x80)) (utf8_decode_fuel fuel (bs.drop 1))
          else none
        else if 0xE0 ≤ b ∧ b < 0xF0 then
          if 2 ≤ bs.length ∧ cont_byte (bs.getD 0 0) ∧ cont_byte (bs.getD 1 0) then
            utf8_cont (((b - 0xE0) * 64 + (bs.getD 0 0 - 0x80)) * 64 + (bs.getD 1 0 - 0x80))
              (utf8_decode_fuel fuel (bs.drop 2))
          else none
        else if 0xF0 ≤ b ∧ b < 0xF8 then
          if 3 ≤ bs.length ∧ cont_byte (bs.getD 0 0) ∧ cont_byte (bs.getD 1 0)
              ∧ cont_byte (bs.getD 2 0) then
            utf8_cont ((((b - 0xF0) * 64 + (bs.getD 0 0 - 0x80)) * 64 + (bs.getD 1 0 - 0x80)) * 64
              + (bs.getD 2 0 - 0x80)) (utf8_decode_fuel fuel (bs.drop 3))
          else none
        else none

/-- UTF-8 decoding of a byte list (bytes.decode of the source); the length of
the input bounds the number of code points. -/
def utf8_decode (bs : List Nat) : Option (List Char) :=
  utf8_decode_fuel bs.length bs

theorem char_toNat_lt (c : Char) : c.toNat < 0x110000 := by
  have hv := c.valid
  rcases hv with h | h
  · exact Nat.lt_of_lt_of_le h (by norm_num)
  · exact h.2

theorem utf8_cont_toNat (c : Char) (o : Option (List Char)) :
    utf8_cont c.toNat o = o.map (fun cs => c :: cs) := by
  cases o <;> simp [utf8_cont, Char.ofNat_toNat]

theorem utf8_decode_fuel_encode_char (c : Char) (bs : List Nat) (fuel : Nat) :
    utf8_decode_fuel (fuel + 1) (utf8_encode_char c.toNat ++ bs)
      = utf8_cont c.toNat (utf8_decode_fuel fuel bs) := by
  have hval : c.toNat < 0x110000 := char_toNat_lt c
  by_cases h1 : c.toNat < 0x80
  · rw [utf8_encode_char, if_pos h1]
    simp only [List.cons_append, List.nil_append]
    rw [utf8_decode_fuel]
    simp [cont_byte]
    omega
  · by_cases h2 : c.toNat < 0x800
    · rw [utf8_encode_char, if_neg h1, if_pos h2]
      simp only [List.cons_append, List.nil_append]
      rw [utf8_decode_fuel]
      rw [dif_neg (by simp)]
      simp only [List.headD_cons, List.tail_cons]
      rw [if_neg (by omega), if_pos (by omega),
        if_pos (by constructor <;> simp [cont_byte] <;> omega)]
      simp only [List.getD_cons_zero, List.drop_succ_cons, List.drop_zero]
      rw [show (0xC0 + c.toNat / 64 - 0xC0) * 64 + (0x80 + c.toNat % 64 - 0x80) = c.toNat from
        by omega]
    · by_cases h3 : c.toNat < 0x10000
      · rw [utf8_encode_char, if_neg h1, if_neg h2, if_pos h3]
        simp only [List.cons_append, List.nil_append]
        rw [utf8_decode_fuel]
        rw [dif_neg (by simp)]
        simp only [List.headD_cons, List.tail_cons]
        rw [if_neg (by omega), if_neg (by omega), if_pos (by omega),
          if_pos (by refine ⟨by simp, ?_, ?_⟩ <;> simp [cont_byte] <;> omega)]
        simp only [List.getD_cons_zero, List.getD_cons_succ, List.drop_succ_cons, List.drop_zero]
        rw [show ((0xE0 + c.toNat / 4096 - 0xE0) * 64 + (0x80 + c.toNat / 64 % 64 - 0x80)) * 64
            + (0x80 + c.toNat % 64 - 0x80) = c.toNat from by omega]
      · rw [utf8_encode_char, if_neg h1, if_neg h2, if_neg h3]
        simp only [List.cons_append, List.nil_append]
        rw [utf8_decode_fuel]
        rw [dif_neg (by simp)]
        simp only [List.headD_cons, List.tail_cons]
        rw [if_neg (by omega), if_neg (by omega), if_neg (by omega), if_pos (by omega),
          if_pos (by refine ⟨by simp, ?_, ?_, ?_⟩ <;> simp [cont_byte] <;> omega)]
        simp only [List.getD_cons_zero, List.getD_cons_succ, List.drop_succ_cons, List.drop_zero]
        rw [show (((0xF0 + c.toNat / 0x40000 - 0xF0) * 64 + (0x80 + c.toNat / 4096 % 64 - 0x80))
            * 64 + (0x80 + c.toNat / 64 % 64 - 0x80)) * 64 + (0x80 + c.toNat % 64 - 0x80)
            = c.toNat from by omega]

theorem utf8_decode_fuel_encode (s : List Char) :
    ∀ fuel, s.length ≤ fuel → utf8_decode_fuel fuel (utf8_encode s) = some s := by
  induction s with
  | nil =>
      intro fuel _
      cases fuel with
      | zero => rfl
      | succ f => rw [utf8_encode, utf8_decode_fuel, dif_pos rfl]
  | cons c cs ih =>
      intro fuel hfuel
      cases fuel with
      | zero => simp at hfuel
      | succ f =>
          rw [utf8_encode, utf8_decode_fuel_encode_char, ih f (by simpa using hfuel),
            utf8_cont_toNat]
          rfl

theorem utf8_encode_char_length (n : Nat) : 1 ≤ (utf8_encode_char n).length := by
  rw [utf8_encode_char]
  split
  · simp
  · split
    · simp
    · split <;> simp

theorem utf8_encode_length (s : List Char) : s.length ≤ (utf8_encode s).length := by
  induction s with
  | nil => simp [utf8_encode]
  | cons c cs ih =>
      rw [utf8_encode]
      simp only [List.length_append, List.length_cons]
      have := utf8_encode_char_length c.toNat
      omega

theorem utf8_decode_encode (s : List Char) : utf8_decode (utf8_encode s) = some s :=
  utf8_decode_fuel_encode s (utf8_encode s).length (utf8_encode_length s)


/-- The base64 alphabet. -/
def b64_alphabet : List Char :=
  "ABCDEFGHIJKLMNOPQRSTUVWXYZabcdefghijklmnopqrstuvwxyz0123456789+/".data

/-- Character for a six bit group. -/
def b64_char (n : Nat) : Char := b64_alphabet.getD n '='

/-- Index of a character in the alphabet. -/
def char_index : List Char → Char → Option Nat
  | [], _ => none
  | a :: rest, c => if a = c then some 0 else (char_index rest c).map (· + 1)

/-- Six bit value of a base64 character. -/
def b64_index (c : Char) : Option Nat := char_index b64_alphabet c

/-- base64.b64encode on a byte list (three bytes become four characters, with
equals sign padding). -/
def b64_encode : List Nat → List Char
  | [] => []
  | [a] => [b64_char (a / 4), b64_char ((a % 4) * 16), '=', '=']
  | [a, b] => [b64_char (a / 4), b64_char ((a % 4) * 16 + b / 16), b64_char ((b % 16) * 4), '=']
  | a :: b :: c :: rest =>
      b64_char (a / 4) :: b64_char ((a % 4) * 16 + b / 16) :: b64_char ((b % 16) * 4 + c / 64)
        :: b64_char (c % 64) :: b64_encode rest

/-- base64.b64decode on a character list (padding only at the end, length a
multiple of four). -/
def b64_decode : List Char → Option (List Nat)
  | [] => some []
  | c1 :: c2 :: c3 :: c4 :: rest =>
      if c3 = '=' ∧ c4 = '=' ∧ rest = [] then
        match b64_index c1, b64_index c2 with
        | some s1, some s2 => some [s1 * 4 + s2 / 16]
        | _, _ => none
      else if c4 = '=' ∧ rest = [] then
        match b64_index c1, b64_index c2, b64_index c3 with
        | some s1, some s2, some s3 => some [s1 * 4 + s2 / 16, (s2 % 16) * 16 + s3 / 4]
        | _, _, _ => none
      else
        match b64_index c1, b64_index c2, b64_index c3, b64_index c4 with
        | some s1, some s2, some s3, some s4 =>
            match b64_decode rest with
            | some bytes =>
                some ((s1 * 4 + s2 / 16) :: ((s2 % 16) * 16 + s3 / 4)
                  :: ((s3 % 4) * 64 + s4) :: bytes)
            | none => none
        | _, _, _, _ => none
  | _ => none

theorem b64_index_b64_char (n : Nat) (h : n < 64) : b64_index (b64_char n) = some n := by
  interval_cases n <;> rfl

theorem b64_char_ne_pad (n : Nat) (h : n < 64) : b64_char n ≠ '=' := by
  interval_cases n <;> decide

theorem b64_decode_encode (bs : List Nat) (h : ∀ b ∈ bs, b < 256) :
    b64_decode (b64_encode bs) = some bs := by
  induction bs using b64_encode.induct with
  | case1 => rfl
  | case2 a =>
      have ha : a < 256 := h a (by simp)
      rw [b64_encode, b64_decode]
      rw [if_pos ⟨rfl, rfl, rfl⟩, b64_index_b64_char _ (by omega),
        b64_index_b64_char _ (by omega)]
      simp only [Option.some.injEq, List.cons.injEq, and_true]
      omega
  | case3 a b =>
      have ha : a < 256 := h a (by simp)
      have hb : b < 256 := h b (by simp)
      rw [b64_encode, b64_decode]
      rw [if_neg (fun hc => b64_char_ne_pad _ (by omega) hc.1),
        if_pos ⟨rfl, rfl⟩, b64_index_b64_char _ (by omega), b64_index_b64_char _ (by omega),
        b64_index_b64_char _ (by omega)]
      simp only [Option.some.injEq, List.cons.injEq, and_true]
      omega
  | case4 a b c rest ih =>
      have ha : a < 256 := h a (by simp)
      have hb : b < 256 := h b (by simp)
      have hc : c < 256 := h c (by simp)
      have hrest := ih (fun x hx => h x (by simp [hx]))
      rw [b64_encode, b64_decode]
      rw [if_neg (fun hcon => b64_char_ne_pad _ (by omega) hcon.1),
        if_neg (fun hcon => b64_char_ne_pad _ (by omega) hcon.1),
        b64_index_b64_char _ (by omega), b64_index_b64_char _ (by omega),
        b64_index_b64_char _ (by omega), b64_index_b64_char _ (by omega), hrest]
      simp only [Option.some.injEq, List.cons.injEq, and_true, true_and]
      omega


theorem utf8_encode_char_bytes (n : Nat) (h : n < 0x110000) :
    ∀ b ∈ utf8_encode_char n, b < 256 := by
  intro b hb
  rw [utf8_encode_char] at hb
  split at hb
  · simp at hb
    omega
  · split at hb
    · simp at hb
      rcases hb with hb | hb <;> omega
    · split at hb
      · simp at hb
        rcases hb with hb | hb | hb <;> omega
      · simp at hb
        rcases hb with hb | hb | hb | hb <;> omega

theorem utf8_encode_bytes (s : List Char) : ∀ b ∈ utf8_encode s, b < 256 := by
  induction s with
  | nil => simp [utf8_encode]
  | cons c cs ih =>
      intro b hb
      rw [utf8_encode] at hb
      rcases List.mem_append.mp hb with hb | hb
      · exact utf8_encode_char_bytes c.toNat (char_toNat_lt c) b hb
      · exact ih b hb

/-- utilities.write_data: json.dumps, utf-8 encode, base64 encode, store under
the key in the scene file metadata (cmds.fileInfo, modelled from the spec as
an opaque per scene key value store). -/
def write_data (key : String) (dict_data : List (String × JVal))
    (store : String → Option String) : String → Option String :=
  fun k =>
    if k = key then some (String.mk (b64_encode (utf8_encode (json_dumps dict_data))))
    else store k

/-- utilities.read_data: query the key, base64 decode, json.loads (which
decodes the UTF-8 bytes); a missing key yields None. -/
def read_data (key : String) (store : String → Option String) :
    Option (List (String × JVal)) :=
  match store key with
  | some s =>
      match b64_decode s.data with
      | some bytes =>
          match utf8_decode bytes with
          | some chars => json_loads chars
          | none => none
      | none => none
  | none => none

/-- C8: writing a dictionary of strings, numbers, booleans and nulls under a
key and reading that key back yields the identical dictionary; reading a key
that was never written yields no data. -/
theorem c8_write_read_roundtrip (key : String) (d : List (String × JVal))
    (store : String → Option String) :
    read_data key (write_data key d store) = some d
    ∧ read_data key (fun _ => none) = none := by
  constructor
  · rw [read_data, write_data]
    simp [b64_decode_encode _ (utf8_encode_bytes (json_dumps d)), utf8_decode_encode,
      json_loads_dumps]
  · rfl

end WdValidator
